import Mathlib

/-!
# resource-replicator: kubeconfig scanner and ClusterDetector initialisation

A shallow embedding of

* `pkg/kubeconfig/read.go`  (`ReadKubeconfig`),
* `pkg/healthcheck/get.go`  (`HealthChecks`),
* `main.go`                 (`initCreate`),

together with the parts of the Go standard library and of controller-runtime they call
(`strings.Contains`, `strings.Fields`, `bufio.Scanner` with the default line splitter,
`controllerutil.CreateOrUpdate`).

Go strings are modelled by Lean strings, i.e. the document is assumed to be valid UTF-8.
A run-time panic (index out of range) is an `Except.error`. The scanner has the default buffer:
it stops at the first line of `bufio.MaxScanTokenSize` bytes or more, and `ReadKubeconfig` does
not look at its error.
-/

set_option autoImplicit false

/-! ## Go standard library -/

namespace unicode

/-- Go `unicode.IsSpace`: the code points with the Unicode White_Space property. -/
def IsSpace (c : Char) : Bool :=
  let n := c.toNat
  (9 ≤ n && n ≤ 13) || n == 32 || n == 133 || n == 160 || n == 5760 ||
  (8192 ≤ n && n ≤ 8202) || n == 8232 || n == 8233 || n == 8239 || n == 8287 || n == 12288

end unicode

namespace strings

/-- Substring test on character lists: some suffix of the first list starts with the second. -/
def containsChars : List Char → List Char → Bool
  | [], sub => sub.isEmpty
  | c :: cs, sub => sub.isPrefixOf (c :: cs) || containsChars cs sub

/-- Go `strings.Contains(s, substr)`. -/
def Contains (s substr : String) : Bool :=
  containsChars s.data substr.data

/-- Worker of `Fields`: `cur` is the field being read, in reverse. -/
def fieldsFrom : List Char → List Char → List String
  | [], cur => if cur.isEmpty then [] else [String.mk cur.reverse]
  | c :: cs, cur =>
    if unicode.IsSpace c then
      if cur.isEmpty then fieldsFrom cs [] else String.mk cur.reverse :: fieldsFrom cs []
    else fieldsFrom cs (c :: cur)

/-- Go `strings.Fields(s)`: the maximal runs of non-space characters of `s`, in order. -/
def Fields (s : String) : List String :=
  fieldsFrom s.data []

end strings

namespace utf8

/-- Go `utf8.RuneLen`: the number of bytes in the UTF-8 encoding of a character. -/
def RuneLen (c : Char) : Nat :=
  let n := c.toNat
  if n < 128 then 1 else if n < 2048 then 2 else if n < 65536 then 3 else 4

end utf8

namespace bufio

/-- Go `bufio.MaxScanTokenSize`: the size to which the buffer of a `Scanner` grows. -/
def MaxScanTokenSize : Nat := 64 * 1024

/-- The length in bytes of a line. -/
def byteLen (l : List Char) : Nat :=
  (l.map utf8.RuneLen).sum

/-- The first `n` bytes of a line. A character that the boundary cuts leaves its leading bytes
behind: they are no valid UTF-8, `strings.Fields` reads each of them as the rune U+FFFD, which
is no space, and no marker contains one; each of them stands here as U+FFFD. -/
def takeBytes : Nat → List Char → List Char
  | _, [] => []
  | n, c :: cs =>
    if utf8.RuneLen c ≤ n then c :: takeBytes (n - utf8.RuneLen c) cs
    else List.replicate n (Char.ofNat 65533)

/-- Split at every newline; a last line without a newline is kept when it is not empty. -/
def rawLines : List Char → List (List Char)
  | [] => []
  | c :: cs =>
    if c = Char.ofNat 10 then [] :: rawLines cs
    else
      match rawLines cs with
      | [] => [[c]]
      | l :: ls => (c :: l) :: ls

/-- Go `bufio.dropCR`: drop one trailing carriage return. -/
def dropCR (l : List Char) : List Char :=
  if l.getLast? = some (Char.ofNat 13) then l.dropLast else l

/-- What the successive calls of `scanner.Scan()` deliver. `lines` are the values of
`scanner.Text()` up to the first call that returns false. `final` is the value a further call
delivers before `Scan()` is false for good: there is none after the end of the input, and after
a line that does not fit the buffer it is the buffered head of that line. -/
structure Scanned where
  lines : List String
  final : Option String
  deriving DecidableEq, Repr

/-- The calls of `Scan()` over the lines still to be read. A line is delivered with one trailing
carriage return dropped (`ScanLines`). At a line of `MaxScanTokenSize` bytes or more the buffer
is full without a newline: `Scan()` sets `ErrTooLong` and returns false, and the rest of the
input is never read. A call after that hands the buffer to the split function as the last data
(`s.split(s.buf[s.start:s.end], s.err != nil)`), which returns it as a line. -/
def scanFrom : List (List Char) → Scanned
  | [] => { lines := [], final := none }
  | l :: ls =>
    if byteLen l < MaxScanTokenSize then
      { lines := String.mk (dropCR l) :: (scanFrom ls).lines, final := (scanFrom ls).final }
    else
      { lines := [], final := some (String.mk (dropCR (takeBytes MaxScanTokenSize l))) }

/-- A `bufio.Scanner` over `text` with the default buffer and the default split function
`ScanLines` (read.go lines 41-42). -/
def scanLines (text : String) : Scanned :=
  scanFrom (rawLines text.data)

end bufio

/-! ## pkg/kubeconfig/read.go -/

namespace kubeconfig

/-- Go `RemoteAPIServer`. -/
structure RemoteAPIServer where
  Name : String
  Endpoint : String
  deriving DecidableEq, Repr

/-- Go `TargetCluster`. -/
structure TargetCluster where
  ContextName : String
  ClusterName : String
  UserName : String
  deriving DecidableEq, Repr

/-- Go run-time panic `index out of range [index] with length length`. -/
structure IndexOutOfRange where
  index : Nat
  length : Nat
  deriving DecidableEq, Repr

/-- Go `xs[i]` on a slice of strings. -/
def index (xs : List String) (i : Nat) : Except IndexOutOfRange String :=
  match xs[i]? with
  | some x => .ok x
  | none => .error ⟨i, xs.length⟩

/-- The local variables of `ReadKubeconfig` that live across loop iterations. -/
structure ScanState where
  clusterName : List String := []
  contextName : List String := []
  endPoint : List String := []
  remoteAPIServers : List RemoteAPIServer := []
  remoteTargetClusters : List TargetCluster := []
  serverName : List String := []
  userName : List String := []
  deriving DecidableEq, Repr

/-- The switch at the head of the outer loop body (read.go lines 57-70). -/
def scanServer (line : String) (st : ScanState) : Except IndexOutOfRange ScanState :=
  if strings.Contains line "server:" then
    .ok { st with endPoint := strings.Fields line }
  else if strings.Contains line "name:" then
    let serverName := strings.Fields line
    match index serverName 1 with
    | .error p => .error p
    | .ok nm =>
      match index st.endPoint 1 with
      | .error p => .error p
      | .ok ep =>
        let a : RemoteAPIServer := { Name := nm, Endpoint := ep }
        .ok { st with serverName := serverName,
                      remoteAPIServers := st.remoteAPIServers ++ [a] }
  else .ok st

/-- The inner loop of `ReadKubeconfig` (read.go lines 79-100) over the lines not yet scanned;
`final` is what a call of `Scan()` after the first false one delivers. `break scan` leaves the
function. When `Scan()` is false the inner loop ends and the outer `for` calls `Scan()` again:
after the end of the input that call is false as well; after a line that did not fit the buffer
it delivers `final`, the switch of the outer loop body looks at it, and every later call is
false. -/
def scanContexts : List String → Option String → ScanState → Except IndexOutOfRange ScanState
  | [], none, st => .ok st
  | [], some head, st => scanServer head st
  | line :: rest, final, st =>
    if strings.Contains line "current-context:" then .ok st
    else if strings.Contains line "cluster:" then
      scanContexts rest final { st with clusterName := strings.Fields line }
    else if strings.Contains line "user:" then
      scanContexts rest final { st with userName := strings.Fields line }
    else if strings.Contains line "name:" then
      let contextName := strings.Fields line
      match index contextName 1 with
      | .error p => .error p
      | .ok ctx =>
        match index st.clusterName 1 with
        | .error p => .error p
        | .ok cl =>
          match index st.userName 1 with
          | .error p => .error p
          | .ok us =>
            let c : TargetCluster := { ContextName := ctx, ClusterName := cl, UserName := us }
            scanContexts rest final
              { st with contextName := contextName,
                        remoteTargetClusters := st.remoteTargetClusters ++ [c] }
    else scanContexts rest final st

/-- The outer loop of `ReadKubeconfig` (read.go lines 54-101) over the lines not yet scanned.
When `Scan()` is false in the condition of the outer `for`, the loop ends and `Scan()` is not
called again. -/
def scanClusters : List String → Option String → ScanState → Except IndexOutOfRange ScanState
  | [], _, st => .ok st
  | line :: rest, final, st =>
    match scanServer line st with
    | .error p => .error p
    | .ok st1 =>
      if !strings.Contains line "contexts:" then scanClusters rest final st1
      else scanContexts rest final st1

/-- The two slices `ReadKubeconfig` returns. -/
structure Parsed where
  remoteAPIServers : List RemoteAPIServer
  remoteTargetClusters : List TargetCluster
  deriving DecidableEq, Repr

/-- The scan of `ReadKubeconfig` over what the scanner delivers. -/
def parseLines (s : bufio.Scanned) : Except IndexOutOfRange Parsed :=
  match scanClusters s.lines s.final {} with
  | .error p => .error p
  | .ok st => .ok ⟨st.remoteAPIServers, st.remoteTargetClusters⟩

end kubeconfig

/-! ## Kubernetes API objects and the client -/

/-- Go `error` values as far as the program distinguishes them: `apierrors.IsNotFound` or not. -/
inductive Error where
  | notFound (msg : String)
  | other (msg : String)
  deriving DecidableEq, Repr

namespace apierrors

/-- Go `apierrors.IsNotFound`. -/
def IsNotFound : Error → Bool
  | .notFound _ => true
  | .other _ => false

end apierrors

namespace client

/-- Go `client.ObjectKey`. -/
structure ObjectKey where
  Namespace : String
  Name : String
  deriving DecidableEq, Repr

end client

namespace corev1

/-- Go `corev1.Secret`, reduced to its `Data` map. -/
structure Secret where
  Data : List (String × String)
  deriving DecidableEq, Repr

end corev1

namespace replicatev1

/-- Go `ClusterDetectorSpec` (api/v1/clusterdetector_types.go). -/
structure ClusterDetectorSpec where
  Context : String := ""
  Cluster : String := ""
  User : String := ""
  deriving DecidableEq, Repr

/-- Go `ClusterDetectorStatus`. -/
structure ClusterDetectorStatus where
  ClusterStatus : String := ""
  deriving DecidableEq, Repr

/-- Go `metav1.ObjectMeta`, reduced to the fields the program or the API server sets. -/
structure ObjectMeta where
  Name : String := ""
  Namespace : String := ""
  ResourceVersion : String := ""
  deriving DecidableEq, Repr

/-- Go `ClusterDetector`. -/
structure ClusterDetector where
  ObjectMeta : ObjectMeta := {}
  Spec : ClusterDetectorSpec := {}
  Status : ClusterDetectorStatus := {}
  deriving DecidableEq, Repr

/-- Go `obj.SetNamespace(ns)`. -/
def ClusterDetector.SetNamespace (obj : ClusterDetector) (ns : String) : ClusterDetector :=
  { obj with ObjectMeta := { obj.ObjectMeta with Namespace := ns } }

/-- Go `obj.SetName(name)`. -/
def ClusterDetector.SetName (obj : ClusterDetector) (name : String) : ClusterDetector :=
  { obj with ObjectMeta := { obj.ObjectMeta with Name := name } }

end replicatev1

open replicatev1 in
/-- Go `client.ObjectKeyFromObject`. -/
def client.ObjectKeyFromObject (obj : ClusterDetector) : client.ObjectKey :=
  { Namespace := obj.ObjectMeta.Namespace, Name := obj.ObjectMeta.Name }

namespace http

/-- Go `http.Response`, reduced to status code and body. -/
structure Response where
  StatusCode : Nat
  Body : String
  deriving DecidableEq, Repr

end http

open replicatev1 in
/-- The external collaborators of the program over a world state `σ` (API server contents and
network): the calls of Go `client.Client` the program makes, and `http.Client.Get`.
A call on a `ClusterDetector` returns the new world, the object as the call left it (Go passes
a pointer) and the error. Nothing is assumed about what the calls do. -/
structure Env (σ : Type) where
  GetSecret : σ → client.ObjectKey → Except Error corev1.Secret
  Get : σ → client.ObjectKey → ClusterDetector → σ × ClusterDetector × Option Error
  Create : σ → ClusterDetector → σ × ClusterDetector × Option Error
  Update : σ → ClusterDetector → σ × ClusterDetector × Option Error
  StatusUpdate : σ → ClusterDetector → σ × ClusterDetector × Option Error
  HTTPGet : σ → String → σ × Except Error http.Response

namespace kubeconfig

/-- The four values `ReadKubeconfig` returns. -/
structure Result where
  kubeconfig : String
  remoteAPIServers : List RemoteAPIServer
  remoteTargetClusters : List TargetCluster
  err : Option Error
  deriving DecidableEq, Repr

/-- Go `string(secret.Data["config"])`: a missing key reads as the empty string. -/
def kubeconfigOf (secret : corev1.Secret) : String :=
  (secret.Data.lookup "config").getD ""

/-- The key of the secret that holds the document. -/
def secretKey : client.ObjectKey :=
  { Namespace := "kubeconfig", Name := "config" }

/-- Go `ReadKubeconfig(cli)` (read.go lines 33-104); `cli` is the secret reader of the
client. -/
def ReadKubeconfig (cli : client.ObjectKey → Except Error corev1.Secret) :
    Except IndexOutOfRange Result :=
  match cli secretKey with
  | .error err => .ok { kubeconfig := "", remoteAPIServers := [], remoteTargetClusters := [],
                        err := some err }
  | .ok secret =>
    let kubeconfig := kubeconfigOf secret
    match parseLines (bufio.scanLines kubeconfig) with
    | .error p => .error p
    | .ok r => .ok { kubeconfig := kubeconfig, remoteAPIServers := r.remoteAPIServers,
                     remoteTargetClusters := r.remoteTargetClusters, err := none }

end kubeconfig

/-! ## pkg/healthcheck/get.go -/

namespace healthcheck

/-- Go `HealthChecks(target)`: one GET of `<Endpoint>/livez`; only the transport error is
looked at, the response is read and printed. -/
def HealthChecks {σ : Type} (env : Env σ) (w : σ) (target : kubeconfig.RemoteAPIServer) :
    σ × Option Error :=
  let u := target.Endpoint ++ "/livez"
  match env.HTTPGet w u with
  | (w1, .error err) => (w1, some err)
  | (w1, .ok _) => (w1, none)

end healthcheck

/-! ## controller-runtime: controllerutil.CreateOrUpdate -/

namespace controllerutil

open replicatev1

/-- Go `controllerutil.OperationResult`. -/
inductive OperationResult where
  | None
  | Created
  | Updated
  deriving DecidableEq, Repr

/-- Go `controllerutil.mutate`: run the callback, then check that the key is unchanged. -/
def mutate (f : ClusterDetector → ClusterDetector × Option Error) (key : client.ObjectKey)
    (obj : ClusterDetector) : ClusterDetector × Option Error :=
  match f obj with
  | (obj1, some err) => (obj1, some err)
  | (obj1, none) =>
    if key ≠ client.ObjectKeyFromObject obj1 then
      (obj1, some (.other "MutateFn cannot mutate object name and/or object namespace"))
    else (obj1, none)

/-- Go `controllerutil.CreateOrUpdate(ctx, c, obj, f)`. -/
def CreateOrUpdate {σ : Type} (env : Env σ) (w : σ) (obj : ClusterDetector)
    (f : ClusterDetector → ClusterDetector × Option Error) :
    σ × ClusterDetector × OperationResult × Option Error :=
  let key := client.ObjectKeyFromObject obj
  match env.Get w key obj with
  | (w1, obj1, some err) =>
    if !apierrors.IsNotFound err then (w1, obj1, .None, some err)
    else
      match mutate f key obj1 with
      | (obj2, some err) => (w1, obj2, .None, some err)
      | (obj2, none) =>
        match env.Create w1 obj2 with
        | (w2, obj3, some err) => (w2, obj3, .None, some err)
        | (w2, obj3, none) => (w2, obj3, .Created, none)
  | (w1, obj1, none) =>
    let existing := obj1
    match mutate f key obj1 with
    | (obj2, some err) => (w1, obj2, .None, some err)
    | (obj2, none) =>
      if existing = obj2 then (w1, obj2, .None, none)
      else
        match env.Update w1 obj2 with
        | (w2, obj3, some err) => (w2, obj3, .None, some err)
        | (w2, obj3, none) => (w2, obj3, .Updated, none)

end controllerutil

/-! ## main.go -/

namespace main

open replicatev1 kubeconfig

/-- The calls to the outside that one pass makes, in order, each with the target cluster being
processed. -/
inductive Event where
  | createOrUpdate (t : TargetCluster)
  | healthChecks (t : TargetCluster) (a : RemoteAPIServer)
  | statusUpdate (t : TargetCluster) (obj : ClusterDetector)
  deriving DecidableEq, Repr

/-- What the loop of `initCreate` carries from one target cluster to the next: the world, the
one `clusterDetector` object declared before the loop, and the log of calls made so far. -/
structure LoopState (σ : Type) where
  world : σ
  clusterDetector : ClusterDetector
  trace : List Event

/-- The callback passed to `CreateOrUpdate` (main.go lines 100-106). -/
def mutateFn (t : TargetCluster) (obj : ClusterDetector) : ClusterDetector × Option Error :=
  ({ obj with Spec := { Context := t.ContextName, Cluster := t.ClusterName, User := t.UserName } },
    none)

/-- The call `ctrl.CreateOrUpdate(ctx, localClient, clusterDetector, ...)` for `t`, after
`clusterDetector.SetName(t.ContextName)` (main.go lines 95-106). -/
def upsert {σ : Type} (env : Env σ) (t : TargetCluster) (st : LoopState σ) :
    σ × ClusterDetector × controllerutil.OperationResult × Option Error :=
  controllerutil.CreateOrUpdate env st.world (st.clusterDetector.SetName t.ContextName)
    (mutateFn t)

/-- The loop over `apiServer` (main.go lines 115-126): the first record whose `Name` is
`t.ClusterName` is probed and the loop is left. -/
def joinAPIServer {σ : Type} (env : Env σ) (t : TargetCluster) :
    List RemoteAPIServer → LoopState σ → LoopState σ
  | [], st => st
  | a :: rest, st =>
    if t.ClusterName = a.Name then
      match healthcheck.HealthChecks env st.world a with
      | (w1, some _) =>
        { world := w1,
          clusterDetector := { st.clusterDetector with Status := { ClusterStatus := "Unknown" } },
          trace := st.trace ++ [Event.healthChecks t a] }
      | (w1, none) =>
        { world := w1,
          clusterDetector := { st.clusterDetector with Status := { ClusterStatus := "Running" } },
          trace := st.trace ++ [Event.healthChecks t a] }
    else joinAPIServer env t rest st

/-- The call `localClient.Status().Update(ctx, clusterDetector)` (main.go lines 127-129). -/
def statusUpdate {σ : Type} (env : Env σ) (t : TargetCluster) (st : LoopState σ) :
    LoopState σ × Option Error :=
  match env.StatusUpdate st.world st.clusterDetector with
  | (w1, obj1, err) =>
    ({ world := w1, clusterDetector := obj1,
       trace := st.trace ++ [Event.statusUpdate t st.clusterDetector] }, err)

/-- The body of the loop over `targetCluster` (main.go lines 95-130). The error, when there is
one, is the value `initCreate` returns from inside the loop. -/
def loopBody {σ : Type} (env : Env σ) (apiServer : List RemoteAPIServer)
    (t : TargetCluster) (st : LoopState σ) : LoopState σ × Option Error :=
  match upsert env t st with
  | (w1, obj1, op, err) =>
    let st1 : LoopState σ :=
      { world := w1, clusterDetector := obj1, trace := st.trace ++ [Event.createOrUpdate t] }
    if op ≠ controllerutil.OperationResult.None then
      statusUpdate env t (joinAPIServer env t apiServer st1)
    else
      match err with
      | some e => (st1, some e)
      | none => statusUpdate env t (joinAPIServer env t apiServer st1)

/-- The loop over `targetCluster` (main.go lines 94-133). -/
def initCreateLoop {σ : Type} (env : Env σ) (apiServer : List RemoteAPIServer) :
    List TargetCluster → LoopState σ → LoopState σ × Option Error
  | [], st => (st, none)
  | t :: rest, st =>
    match loopBody env apiServer t st with
    | (st1, some e) => (st1, some e)
    | (st1, none) => initCreateLoop env apiServer rest st1

/-- The loop state before the first target cluster: `clusterDetector` is a fresh object with
the namespace set (main.go lines 88-90), and no call has been made. -/
def initialState {σ : Type} (w : σ) : LoopState σ :=
  { world := w,
    clusterDetector := ({} : ClusterDetector).SetNamespace "resource-replicator-system",
    trace := [] }

/-- Go `initCreate()` (main.go lines 81-134) with the local client `env` in world `w`. An error
of `ReadKubeconfig` is only logged; both slices are then empty. -/
def initCreate {σ : Type} (env : Env σ) (w : σ) :
    Except IndexOutOfRange (LoopState σ × Option Error) :=
  match ReadKubeconfig (env.GetSecret w) with
  | .error p => .error p
  | .ok r => .ok (initCreateLoop env r.remoteAPIServers r.remoteTargetClusters (initialState w))

end main

/-! ## Vocabulary for statements about the scanner -/

namespace kubeconfig

/-- The value of a matching line: its second whitespace-delimited token, `""` when absent. -/
def valueOf (line : String) : String :=
  (strings.Fields line).getD 1 ""

/-- A line with at least two whitespace-delimited tokens. -/
def hasValue (line : String) : Bool :=
  decide (2 ≤ (strings.Fields line).length)

/-- The most recent line of `pre` (the lines read so far, in document order) that satisfies
`p`. -/
def lastWith (p : String → Bool) (pre : List String) : Option String :=
  pre.reverse.find? p

/-- The tokens of the most recent line of `pre` satisfying `p`; no tokens when there is none. -/
def pending (p : String → Bool) (pre : List String) : List String :=
  match lastWith p pre with
  | some s => strings.Fields s
  | none => []

/-- The most recent line of `pre` satisfying `p` exists and has a value. -/
def pendingHasValue (p : String → Bool) (pre : List String) : Bool :=
  match lastWith p pre with
  | some s => hasValue s
  | none => false

/-- `P pre l` holds for every line `l` of `lines`, where `pre` is `before` followed by the
lines of `lines` in front of `l`. -/
def everyLine (P : List String → String → Bool) : List String → List String → Bool
  | _, [] => true
  | before, l :: ls => P before l && everyLine P (before ++ [l]) ls

/-- The lines the outer switch of `ReadKubeconfig` looks at: up to and including the first line
containing the contexts marker. -/
def outerLines : List String → List String
  | [] => []
  | l :: ls => if strings.Contains l "contexts:" then [l] else l :: outerLines ls

/-- The lines up to (not including) the first one containing the current-selection marker. -/
def untilCurrentContext : List String → List String
  | [] => []
  | l :: ls => if strings.Contains l "current-context:" then [] else l :: untilCurrentContext ls

/-- The lines the inner switch of `ReadKubeconfig` looks at before the scan ends: those after
the first line containing the contexts marker, up to the current-selection marker. -/
def contextLines : List String → List String
  | [] => []
  | l :: ls => if strings.Contains l "contexts:" then untilCurrentContext ls else contextLines ls

/-- A line the outer switch treats as an endpoint line. -/
def isServerLine (l : String) : Bool :=
  strings.Contains l "server:"

/-- A line the outer switch treats as a name line: it closes a cluster entry. -/
def isServerNameLine (l : String) : Bool :=
  strings.Contains l "name:" && !strings.Contains l "server:"

/-- A line the inner switch treats as a cluster-reference line (once the current-selection
marker is excluded). -/
def isClusterLine (l : String) : Bool :=
  strings.Contains l "cluster:"

/-- A line containing the user-reference marker. -/
def containsUser (l : String) : Bool :=
  strings.Contains l "user:"

/-- A line the inner switch treats as a user-reference line (once the current-selection marker
is excluded): the cluster case of the switch comes first. -/
def isUserLine (l : String) : Bool :=
  strings.Contains l "user:" && !strings.Contains l "cluster:"

/-- A line the inner switch treats as a name line: it closes a context entry. -/
def isContextNameLine (l : String) : Bool :=
  strings.Contains l "name:" && !strings.Contains l "current-context:" &&
    !strings.Contains l "cluster:" && !strings.Contains l "user:"

/-- The inner loop runs out of lines: some line contains the contexts marker, and no line after
the first such line contains the current-selection marker. -/
def innerRunsOut : List String → Bool
  | [] => false
  | l :: ls =>
    if strings.Contains l "contexts:" then
      ls.all (fun x => !strings.Contains x "current-context:")
    else innerRunsOut ls

/-- The lines the outer switch of `ReadKubeconfig` looks at, in order: the lines up to and
including the first one containing the contexts marker and, when the inner loop has run out of
lines at a line that did not fit the buffer, the buffered head of that line. -/
def outerScanned (s : bufio.Scanned) : List String :=
  outerLines s.lines ++ (if innerRunsOut s.lines then s.final.toList else [])

/-- The index-safety precondition as stated: (1) every name line the outer switch looks at has a
value and follows a line containing the endpoint marker whose most recent occurrence has a
value; (2) every name line the inner switch looks at has a value and follows, in context mode,
a line containing the cluster marker and a line containing the user marker whose most recent
occurrences have a value. -/
def StatedPrecondition (s : bufio.Scanned) : Prop :=
  everyLine (fun pre l => !isServerNameLine l || (hasValue l && pendingHasValue isServerLine pre))
      [] (outerScanned s) = true ∧
  everyLine (fun pre l => !isContextNameLine l ||
      (hasValue l && pendingHasValue isClusterLine pre && pendingHasValue containsUser pre))
      [] (contextLines s.lines) = true

/-- The index-safety precondition with the user line read as the switch reads it: a line
containing the user marker and not the cluster marker. -/
def SafePrecondition (s : bufio.Scanned) : Prop :=
  everyLine (fun pre l => !isServerNameLine l || (hasValue l && pendingHasValue isServerLine pre))
      [] (outerScanned s) = true ∧
  everyLine (fun pre l => !isContextNameLine l ||
      (hasValue l && pendingHasValue isClusterLine pre && pendingHasValue isUserLine pre))
      [] (contextLines s.lines) = true

/-- One cluster entry of a document: the lines in front of its name line, and the name line. -/
structure ClusterEntry where
  body : List String
  name : String
  deriving DecidableEq, Repr

/-- The lines of a cluster entry, in document order. -/
def ClusterEntry.lines (e : ClusterEntry) : List String :=
  e.body ++ [e.name]

/-- A well-formed cluster entry: every body line is an endpoint line or carries none of the
markers of the outer loop, the contexts marker occurs nowhere, there is an endpoint line with a
value (the last one, if several), and the name line has a value. -/
def ClusterEntry.WellFormed (e : ClusterEntry) : Prop :=
  (∀ l ∈ e.body, strings.Contains l "contexts:" = false ∧
      (isServerLine l = true ∨ strings.Contains l "name:" = false)) ∧
  pendingHasValue isServerLine e.body = true ∧
  isServerNameLine e.name = true ∧ strings.Contains e.name "contexts:" = false ∧
  hasValue e.name = true

/-- The record built from a cluster entry. -/
def ClusterEntry.record (e : ClusterEntry) : RemoteAPIServer :=
  { Name := valueOf e.name, Endpoint := (pending isServerLine e.body).getD 1 "" }

/-- One context entry of a document: the lines in front of its name line, and the name line. -/
structure ContextEntry where
  body : List String
  name : String
  deriving DecidableEq, Repr

/-- The lines of a context entry, in document order. -/
def ContextEntry.lines (e : ContextEntry) : List String :=
  e.body ++ [e.name]

/-- A well-formed context entry: every body line is a cluster-reference line, a user-reference
line or carries none of the markers of the inner loop, there is a cluster-reference line and a
user-reference line with a value (the last of each, if several), and the name line has a
value. -/
def ContextEntry.WellFormed (e : ContextEntry) : Prop :=
  (∀ l ∈ e.body, strings.Contains l "current-context:" = false ∧
      (isClusterLine l = true ∨ isUserLine l = true ∨ strings.Contains l "name:" = false)) ∧
  pendingHasValue isClusterLine e.body = true ∧
  pendingHasValue isUserLine e.body = true ∧
  isContextNameLine e.name = true ∧ hasValue e.name = true

/-- The record built from a context entry. -/
def ContextEntry.record (e : ContextEntry) : TargetCluster :=
  { ContextName := valueOf e.name,
    ClusterName := (pending isClusterLine e.body).getD 1 "",
    UserName := (pending isUserLine e.body).getD 1 "" }

/-- The lines of a list of entries, in document order. -/
def concatLines : List (List String) → List String
  | [] => []
  | ls :: rest => ls ++ concatLines rest

/-- A well-formed document: the cluster entries, the contexts marker line, the context entries,
the current-selection line, and whatever follows. -/
def documentLines (clusters : List ClusterEntry) (marker : String)
    (contexts : List ContextEntry) (current : String) (rest : List String) : List String :=
  concatLines (clusters.map ClusterEntry.lines) ++ marker ::
    (concatLines (contexts.map ContextEntry.lines) ++ current :: rest)

/-- The servers and target clusters of a result. -/
def Result.records (r : Result) : List RemoteAPIServer × List TargetCluster :=
  (r.remoteAPIServers, r.remoteTargetClusters)

/-- The string `x` is the value of one of the lines `ls`: its second whitespace-delimited
token. -/
def IsValueIn (ls : List String) (x : String) : Prop :=
  ∃ l ∈ ls, (strings.Fields l)[1]? = some x

/-- The lines of a document as the scanner delivers them: the lines in front of the first one
that does not fit the buffer, and the buffered head of that line. -/
def delivered (s : bufio.Scanned) : List String :=
  s.lines ++ s.final.toList

/-- Every pending slice holds the tokens of one of the lines `ls`, or is empty, and every field
of every emitted record is the value of one of the lines `ls`. -/
def ScanState.FromLines (ls : List String) (st : ScanState) : Prop :=
  (st.endPoint = [] ∨ ∃ l ∈ ls, st.endPoint = strings.Fields l) ∧
  (st.clusterName = [] ∨ ∃ l ∈ ls, st.clusterName = strings.Fields l) ∧
  (st.userName = [] ∨ ∃ l ∈ ls, st.userName = strings.Fields l) ∧
  (∀ a ∈ st.remoteAPIServers, IsValueIn ls a.Name ∧ IsValueIn ls a.Endpoint) ∧
  (∀ t ∈ st.remoteTargetClusters,
    IsValueIn ls t.ContextName ∧ IsValueIn ls t.ClusterName ∧ IsValueIn ls t.UserName)

/-- The document shape in the words of the claim: K cluster entries, each an endpoint line
followed by a name line, the contexts line, M context entries, each a cluster line and a user
line followed by a name line, and the current-selection line. -/
structure StatedDocument where
  clusters : List (String × String)
  marker : String
  contexts : List (String × String × String)
  current : String
  deriving DecidableEq, Repr

/-- The lines of a document of the stated shape, in document order. -/
def StatedDocument.lines (d : StatedDocument) : List String :=
  concatLines (d.clusters.map (fun e => [e.1, e.2])) ++ d.marker ::
    (concatLines (d.contexts.map (fun e => [e.1, e.2.1, e.2.2])) ++ [d.current])

/-- Well-formedness in the words of the claim: a line of a kind is a line that contains the
marker of that kind; here it has a value as well. -/
def StatedDocument.WellFormed (d : StatedDocument) : Prop :=
  (∀ e ∈ d.clusters, strings.Contains e.1 "server:" = true ∧ hasValue e.1 = true ∧
    strings.Contains e.2 "name:" = true ∧ hasValue e.2 = true) ∧
  strings.Contains d.marker "contexts:" = true ∧
  (∀ e ∈ d.contexts, strings.Contains e.1 "cluster:" = true ∧ hasValue e.1 = true ∧
    strings.Contains e.2.1 "user:" = true ∧ hasValue e.2.1 = true ∧
    strings.Contains e.2.2 "name:" = true ∧ hasValue e.2.2 = true) ∧
  strings.Contains d.current "current-context:" = true

end kubeconfig

/-! ## Vocabulary for statements about the pass -/

namespace main

open replicatev1 kubeconfig

/-- The loop state in which the join for `t` starts: the world and the object as
`CreateOrUpdate` left them. -/
def afterUpsert {σ : Type} (env : Env σ) (t : TargetCluster) (st : LoopState σ) : LoopState σ :=
  { world := (upsert env t st).1, clusterDetector := (upsert env t st).2.1,
    trace := st.trace ++ [Event.createOrUpdate t] }

/-- The loop state in which `Status().Update` is called for `t`. -/
def afterJoin {σ : Type} (env : Env σ) (apiServer : List RemoteAPIServer) (t : TargetCluster)
    (st : LoopState σ) : LoopState σ :=
  joinAPIServer env t apiServer (afterUpsert env t st)

/-- The upsert of `t` returns the error `e`. -/
def upsertFails {σ : Type} (env : Env σ) (t : TargetCluster) (st : LoopState σ) (e : Error) :
    Prop :=
  (upsert env t st).2.2.2 = some e

/-- The upsert of `t` returns no error and the status update of `t` returns the error `e`. -/
def statusUpdateFails {σ : Type} (env : Env σ) (apiServer : List RemoteAPIServer)
    (t : TargetCluster) (st : LoopState σ) (e : Error) : Prop :=
  (upsert env t st).2.2.2 = none ∧
    (env.StatusUpdate (afterJoin env apiServer t st).world
      (afterJoin env apiServer t st).clusterDetector).2.2 = some e

/-- The event `ev` is a call made while processing `t`. -/
def Event.concerns (ev : Event) (t : TargetCluster) : Prop :=
  ev = Event.createOrUpdate t ∨ (∃ a, ev = Event.healthChecks t a) ∨
    ∃ obj, ev = Event.statusUpdate t obj

/-- The status the join computes from the result of the prober. -/
def classify (probe : Option Error) : String :=
  match probe with
  | none => "Running"
  | some _ => "Unknown"

/-- The `ClusterStatus` of the record stored under `key` in the world `w`, when there is one;
`record` reads the stored records of a world. -/
def storedStatus {σ : Type} (record : σ → client.ObjectKey → Option ClusterDetector) (w : σ)
    (key : client.ObjectKey) : Option String :=
  (record w key).map (fun o => o.Status.ClusterStatus)

/-- The stored status `after` is the stored status `before`; a record that did not exist may
have been created, with the empty status. -/
def StatusKept (before after : Option String) : Prop :=
  after = before ∨ (before = none ∧ after = some "")

/-- What the statements about stored records assume of the API server behind the client, for
`ClusterDetector` records with a status subresource (api/v1/clusterdetector_types.go,
`+kubebuilder:subresource:status`); `record` reads the stored records of a world.

* A record is stored under its own key.
* `Get` changes no stored status; when it returns no error the object holds the stored record,
  and when it returns a not-found error there is no such record.
* `Create` changes no stored status under another key, and none at all when it returns an error;
  when it returns no error the object holds the record now stored, whose status is empty.
* `Update` changes no stored status; when it returns no error the object holds the record now
  stored.
* `StatusUpdate` changes no stored status under another key, and none at all when it returns an
  error; when it returns no error the stored status is that of the object.
* A GET over HTTP changes no stored status. -/
structure LawfulStore {σ : Type} (env : Env σ)
    (record : σ → client.ObjectKey → Option ClusterDetector) : Prop where
  key_of_record : ∀ w k r, record w k = some r → client.ObjectKeyFromObject r = k
  get_status : ∀ w key obj k,
    storedStatus record (env.Get w key obj).1 k = storedStatus record w k
  get_found : ∀ w key obj, (env.Get w key obj).2.2 = none →
    record w key = some (env.Get w key obj).2.1
  get_notFound : ∀ w key obj e, (env.Get w key obj).2.2 = some e →
    apierrors.IsNotFound e = true → record w key = none
  create_error : ∀ w obj e k, (env.Create w obj).2.2 = some e →
    storedStatus record (env.Create w obj).1 k = storedStatus record w k
  create_other : ∀ w obj k, k ≠ client.ObjectKeyFromObject obj →
    storedStatus record (env.Create w obj).1 k = storedStatus record w k
  create_ok : ∀ w obj, (env.Create w obj).2.2 = none →
    record (env.Create w obj).1 (client.ObjectKeyFromObject obj) = some (env.Create w obj).2.1 ∧
      (env.Create w obj).2.1.Status.ClusterStatus = ""
  update_status : ∀ w obj k,
    storedStatus record (env.Update w obj).1 k = storedStatus record w k
  update_ok : ∀ w obj, (env.Update w obj).2.2 = none →
    record (env.Update w obj).1 (client.ObjectKeyFromObject obj) = some (env.Update w obj).2.1
  statusUpdate_error : ∀ w obj e k, (env.StatusUpdate w obj).2.2 = some e →
    storedStatus record (env.StatusUpdate w obj).1 k = storedStatus record w k
  statusUpdate_other : ∀ w obj k, k ≠ client.ObjectKeyFromObject obj →
    storedStatus record (env.StatusUpdate w obj).1 k = storedStatus record w k
  statusUpdate_ok : ∀ w obj, (env.StatusUpdate w obj).2.2 = none →
    storedStatus record (env.StatusUpdate w obj).1 (client.ObjectKeyFromObject obj) =
      some obj.Status.ClusterStatus
  httpGet_status : ∀ w url k,
    storedStatus record (env.HTTPGet w url).1 k = storedStatus record w k

end main

/-! ## An in-memory API server and network -/

namespace fake

open replicatev1

/-- The world of the in-memory collaborators: the kubeconfig secret, the stored
`ClusterDetector` records, the URLs that answer, and the names of records whose writes the API
server refuses. -/
structure World where
  secret : Option corev1.Secret := none
  objects : List ClusterDetector := []
  reachable : List String := []
  refused : List String := []
  deriving DecidableEq, Repr

/-- The stored record with the given key. -/
def World.find (w : World) (key : client.ObjectKey) : Option ClusterDetector :=
  w.objects.find? (fun o => decide (client.ObjectKeyFromObject o = key))

/-- Replace the stored record that has the key of `obj`. -/
def World.replace (w : World) (obj : ClusterDetector) : World :=
  { w with objects := w.objects.map (fun o =>
      if client.ObjectKeyFromObject o = client.ObjectKeyFromObject obj then obj else o) }

/-- An API server holding `ClusterDetector` records with a status subresource: `Create` and
`Update` store the spec and leave the stored status alone, `StatusUpdate` stores the status, and
every call leaves in the object what is stored. -/
def env : Env World where
  GetSecret w key :=
    if key = kubeconfig.secretKey then
      match w.secret with
      | some s => .ok s
      | none => .error (.notFound "secret not found")
    else .error (.notFound "not found")
  Get w key obj :=
    match w.find key with
    | some o => (w, o, none)
    | none => (w, obj, some (.notFound "not found"))
  Create w obj :=
    if obj.ObjectMeta.Name ∈ w.refused then (w, obj, some (.other "forbidden"))
    else
      match w.find (client.ObjectKeyFromObject obj) with
      | some _ => (w, obj, some (.other "already exists"))
      | none =>
        let stored : ClusterDetector := { obj with Status := {} }
        ({ w with objects := w.objects ++ [stored] }, stored, none)
  Update w obj :=
    if obj.ObjectMeta.Name ∈ w.refused then (w, obj, some (.other "forbidden"))
    else
      match w.find (client.ObjectKeyFromObject obj) with
      | none => (w, obj, some (.notFound "not found"))
      | some o =>
        let stored : ClusterDetector := { o with Spec := obj.Spec }
        (w.replace stored, stored, none)
  StatusUpdate w obj :=
    if obj.ObjectMeta.Name ∈ w.refused then (w, obj, some (.other "forbidden"))
    else
      match w.find (client.ObjectKeyFromObject obj) with
      | none => (w, obj, some (.notFound "not found"))
      | some o =>
        let stored : ClusterDetector := { o with Status := obj.Status }
        (w.replace stored, stored, none)
  HTTPGet w url :=
    if url ∈ w.reachable then (w, .ok { StatusCode := 200, Body := "ok" })
    else (w, .error (.other "context deadline exceeded"))

/-- The `ClusterStatus` of the stored record named `name` in the operator namespace. -/
def World.statusOf (w : World) (name : String) : Option String :=
  (w.find { Namespace := "resource-replicator-system", Name := name }).map
    (fun o => o.Status.ClusterStatus)

end fake

/-! ## The scanner: one step at a time -/

namespace kubeconfig

open strings

theorem index_of_hasValue (xs : List String) (h : 2 ≤ xs.length) :
    index xs 1 = .ok (xs.getD 1 "") := by
  match xs, h with
  | _ :: _ :: _, _ => simp [index]

theorem index_ok_getD (xs : List String) (x : String) (h : index xs 1 = .ok x) :
    2 ≤ xs.length ∧ xs.getD 1 "" = x := by
  match xs with
  | [] => simp [index] at h
  | [_] => simp [index] at h
  | _ :: y :: _ =>
    simp [index] at h
    simp [h]

theorem scanContexts_current (l : String) (rest : List String) (final : Option String)
    (st : ScanState) (h : Contains l "current-context:" = true) :
    scanContexts (l :: rest) final st = .ok st := by
  simp [scanContexts, h]

theorem scanContexts_cluster (l : String) (rest : List String) (final : Option String)
    (st : ScanState)
    (h0 : Contains l "current-context:" = false) (h1 : Contains l "cluster:" = true) :
    scanContexts (l :: rest) final st =
      scanContexts rest final { st with clusterName := Fields l } := by
  simp [scanContexts, h0, h1]

theorem scanContexts_user (l : String) (rest : List String) (final : Option String)
    (st : ScanState)
    (h0 : Contains l "current-context:" = false) (h1 : Contains l "cluster:" = false)
    (h2 : Contains l "user:" = true) :
    scanContexts (l :: rest) final st =
      scanContexts rest final { st with userName := Fields l } := by
  simp [scanContexts, h0, h1, h2]

theorem scanContexts_other (l : String) (rest : List String) (final : Option String)
    (st : ScanState)
    (h0 : Contains l "current-context:" = false) (h1 : Contains l "cluster:" = false)
    (h2 : Contains l "user:" = false) (h3 : Contains l "name:" = false) :
    scanContexts (l :: rest) final st = scanContexts rest final st := by
  simp [scanContexts, h0, h1, h2, h3]

theorem scanContexts_name (l : String) (rest : List String) (final : Option String)
    (st : ScanState)
    (h0 : Contains l "current-context:" = false) (h1 : Contains l "cluster:" = false)
    (h2 : Contains l "user:" = false) (h3 : Contains l "name:" = true)
    (ctx cl us : String) (hc : index (Fields l) 1 = .ok ctx)
    (hcl : index st.clusterName 1 = .ok cl) (hus : index st.userName 1 = .ok us) :
    scanContexts (l :: rest) final st =
      scanContexts rest final
        { st with contextName := Fields l,
                  remoteTargetClusters := st.remoteTargetClusters ++
                    [{ ContextName := ctx, ClusterName := cl, UserName := us }] } := by
  simp [scanContexts, h0, h1, h2, h3, hc, hcl, hus]

/-- A name line in context mode that is scanned without a panic had all three values. -/
theorem scanContexts_name_ok (l : String) (rest : List String) (final : Option String)
    (st st2 : ScanState)
    (h0 : Contains l "current-context:" = false) (h1 : Contains l "cluster:" = false)
    (h2 : Contains l "user:" = false) (h3 : Contains l "name:" = true)
    (h : scanContexts (l :: rest) final st = .ok st2) :
    ∃ ctx cl us, index (Fields l) 1 = .ok ctx ∧ index st.clusterName 1 = .ok cl ∧
      index st.userName 1 = .ok us := by
  simp only [scanContexts, h0, h1, h2, h3] at h
  cases hc : index (Fields l) 1 with
  | error p => simp [hc] at h
  | ok ctx =>
    cases hcl : index st.clusterName 1 with
    | error p => simp [hc, hcl] at h
    | ok cl =>
      cases hus : index st.userName 1 with
      | error p => simp [hc, hcl, hus] at h
      | ok us => exact ⟨ctx, cl, us, rfl, rfl, rfl⟩

theorem scanServer_server (l : String) (st : ScanState) (h : Contains l "server:" = true) :
    scanServer l st = .ok { st with endPoint := Fields l } := by
  simp [scanServer, h]

theorem scanServer_other (l : String) (st : ScanState) (h : Contains l "server:" = false)
    (h1 : Contains l "name:" = false) : scanServer l st = .ok st := by
  simp [scanServer, h, h1]

theorem scanServer_name (l : String) (st : ScanState) (h : Contains l "server:" = false)
    (h1 : Contains l "name:" = true) (nm ep : String) (hn : index (Fields l) 1 = .ok nm)
    (he : index st.endPoint 1 = .ok ep) :
    scanServer l st = .ok { st with serverName := Fields l,
                                    remoteAPIServers := st.remoteAPIServers ++
                                      [{ Name := nm, Endpoint := ep }] } := by
  simp [scanServer, h, h1, hn, he]

/-- A name line of the outer switch that is scanned without a panic had both values. -/
theorem scanServer_name_ok (l : String) (st st1 : ScanState) (h1 : Contains l "server:" = false)
    (h2 : Contains l "name:" = true) (h : scanServer l st = .ok st1) :
    ∃ nm ep, index (Fields l) 1 = .ok nm ∧ index st.endPoint 1 = .ok ep := by
  cases hn : index (Fields l) 1 with
  | error p => simp [scanServer, h1, h2, hn] at h
  | ok nm =>
    cases he : index st.endPoint 1 with
    | error p => simp [scanServer, h1, h2, hn, he] at h
    | ok ep => exact ⟨nm, ep, rfl, rfl⟩

theorem scanClusters_cons (l : String) (rest : List String) (final : Option String)
    (st st1 : ScanState)
    (h : scanServer l st = .ok st1) (hm : Contains l "contexts:" = false) :
    scanClusters (l :: rest) final st = scanClusters rest final st1 := by
  simp [scanClusters, h, hm]

theorem scanClusters_marker (l : String) (rest : List String) (final : Option String)
    (st st1 : ScanState)
    (h : scanServer l st = .ok st1) (hm : Contains l "contexts:" = true) :
    scanClusters (l :: rest) final st = scanContexts rest final st1 := by
  simp [scanClusters, h, hm]

theorem scanClusters_error (l : String) (rest : List String) (final : Option String)
    (st : ScanState) (p : IndexOutOfRange) (h : scanServer l st = .error p) :
    scanClusters (l :: rest) final st = .error p := by
  simp [scanClusters, h]

end kubeconfig

/-! ## The scanner: what follows the current-selection marker -/

namespace kubeconfig

open strings

theorem scanContexts_truncate (cc : String) (post : List String)
    (hcc : Contains cc "current-context:" = true) (ls : List String)
    (final final2 : Option String) (st : ScanState) :
    scanContexts (ls ++ cc :: post) final st = scanContexts (ls ++ [cc]) final2 st := by
  induction ls generalizing st with
  | nil => simp [scanContexts, hcc]
  | cons l ls ih =>
    simp only [List.cons_append, scanContexts]
    repeat' split
    all_goals first | rfl | exact ih _

theorem scanClusters_truncate (cc : String) (post : List String)
    (hcc : Contains cc "current-context:" = true) (pre : List String)
    (final final2 : Option String) (st : ScanState)
    (hm : ∃ m ∈ pre, Contains m "contexts:" = true) :
    scanClusters (pre ++ cc :: post) final st = scanClusters (pre ++ [cc]) final2 st := by
  induction pre generalizing st with
  | nil => simp at hm
  | cons l ls ih =>
    simp only [List.cons_append, scanClusters]
    cases scanServer l st with
    | error p => rfl
    | ok st1 =>
      cases hl : Contains l "contexts:" with
      | true => simpa using scanContexts_truncate cc post hcc ls final final2 st1
      | false =>
        have hm2 : ∃ m ∈ ls, Contains m "contexts:" = true := by
          obtain ⟨m, hmem, hmc⟩ := hm
          rcases List.mem_cons.mp hmem with rfl | h
          · simp [hl] at hmc
          · exact ⟨m, h, hmc⟩
        simpa using ih st1 hm2

theorem parseLines_truncate (cc : String) (post : List String)
    (hcc : Contains cc "current-context:" = true) (pre : List String)
    (s s2 : bufio.Scanned) (hs : s.lines = pre ++ cc :: post) (hs2 : s2.lines = pre ++ [cc])
    (hm : ∃ m ∈ pre, Contains m "contexts:" = true) :
    parseLines s = parseLines s2 := by
  simp only [parseLines, hs, hs2,
    scanClusters_truncate cc post hcc pre s.final s2.final _ hm]

theorem ReadKubeconfig_ok (cli : client.ObjectKey → Except Error corev1.Secret)
    (secret : corev1.Secret) (h : cli secretKey = .ok secret) :
    (ReadKubeconfig cli).map Result.records =
      (parseLines (bufio.scanLines (kubeconfigOf secret))).map
        (fun r => (r.remoteAPIServers, r.remoteTargetClusters)) := by
  simp only [ReadKubeconfig, h]
  cases parseLines (bufio.scanLines (kubeconfigOf secret)) <;> rfl

end kubeconfig

/-- C6 as amended: when a line containing the contexts marker comes before a line containing
the current-selection marker, the lines after the latter have no effect: `ReadKubeconfig`
returns the same servers and target clusters (or panics alike) for the document and for the
document cut just after that line. The lines of a document are those the scanner delivers. -/
theorem current_context_ends_scan
    (cli cli2 : client.ObjectKey → Except Error corev1.Secret) (secret secret2 : corev1.Secret)
    (pre post : List String) (cc : String)
    (hget : cli kubeconfig.secretKey = .ok secret)
    (hget2 : cli2 kubeconfig.secretKey = .ok secret2)
    (hdoc : (bufio.scanLines (kubeconfig.kubeconfigOf secret)).lines = pre ++ cc :: post)
    (hcut : (bufio.scanLines (kubeconfig.kubeconfigOf secret2)).lines = pre ++ [cc])
    (hmarker : ∃ m ∈ pre, strings.Contains m "contexts:" = true)
    (hcc : strings.Contains cc "current-context:" = true) :
    (kubeconfig.ReadKubeconfig cli).map kubeconfig.Result.records =
      (kubeconfig.ReadKubeconfig cli2).map kubeconfig.Result.records := by
  rw [kubeconfig.ReadKubeconfig_ok cli secret hget, kubeconfig.ReadKubeconfig_ok cli2 secret2 hget2,
    kubeconfig.parseLines_truncate cc post hcc pre _ _ hdoc hcut hmarker]

/-- Witness of `current_context_ends_scan`: a two-cluster document followed by the `kind`,
`preferences` and `users` sections. -/
theorem current_context_ends_scan_witness :
    (kubeconfig.ReadKubeconfig (fake.env.GetSecret
      { secret := some ⟨[("config",
          "clusters:\n    server: https://10.0.0.1:6443\n  name: cluster-a\ncontexts:\n    cluster: cluster-a\n    user: user-a\n  name: ctx-a\ncurrent-context: ctx-a\nkind: Config\nusers:\n- name: user-a\n")]⟩ })).map
        kubeconfig.Result.records =
    (kubeconfig.ReadKubeconfig (fake.env.GetSecret
      { secret := some ⟨[("config",
          "clusters:\n    server: https://10.0.0.1:6443\n  name: cluster-a\ncontexts:\n    cluster: cluster-a\n    user: user-a\n  name: ctx-a\ncurrent-context: ctx-a\n")]⟩ })).map
        kubeconfig.Result.records :=
  current_context_ends_scan _ _ _ _
    ["clusters:", "    server: https://10.0.0.1:6443", "  name: cluster-a", "contexts:",
      "    cluster: cluster-a", "    user: user-a", "  name: ctx-a"]
    ["kind: Config", "users:", "- name: user-a"] "current-context: ctx-a"
    rfl rfl (by decide) (by decide) (by decide) (by decide)

/-- C6 as stated fails: a line containing the current-selection marker in front of the contexts
marker does not end the scan. The document yields one server, the document cut after its first
line yields none. -/
theorem current_context_before_contexts_scanned :
    (bufio.scanLines
        "current-context: ctx-a\n    server: https://10.0.0.1:6443\n  name: cluster-a\n").lines
      = ["current-context: ctx-a"] ++ ["    server: https://10.0.0.1:6443", "  name: cluster-a"] ∧
    (bufio.scanLines "current-context: ctx-a\n").lines = ["current-context: ctx-a"] ∧
    strings.Contains "current-context: ctx-a" "current-context:" = true ∧
    (kubeconfig.ReadKubeconfig (fun _ => .ok ⟨[("config",
        "current-context: ctx-a\n    server: https://10.0.0.1:6443\n  name: cluster-a\n")]⟩)).map
      kubeconfig.Result.records = .ok ([⟨"cluster-a", "https://10.0.0.1:6443"⟩], []) ∧
    (kubeconfig.ReadKubeconfig (fun _ => .ok ⟨[("config", "current-context: ctx-a\n")]⟩)).map
      kubeconfig.Result.records = .ok ([], []) := by
  refine ⟨by decide, by decide, by decide, rfl, rfl⟩

/-! ## The scanner: pending values -/

namespace kubeconfig

open strings

theorem lastWith_nil (p : String → Bool) : lastWith p [] = none := rfl

theorem lastWith_snoc (p : String → Bool) (pre : List String) (l : String) :
    lastWith p (pre ++ [l]) = if p l then some l else lastWith p pre := by
  simp [lastWith, List.find?_cons]
  cases p l <;> simp

theorem lastWith_cons (p : String → Bool) (l : String) (ls : List String) :
    lastWith p (l :: ls) = (lastWith p ls).or (if p l then some l else none) := by
  simp only [lastWith, List.reverse_cons, List.find?_append, List.find?_cons, List.find?_nil]
  cases p l <;> rfl

theorem lastWith_append (p : String → Bool) (a b : List String) :
    lastWith p (a ++ b) = (lastWith p b).or (lastWith p a) := by
  simp [lastWith, List.find?_append]

theorem pending_eq (p : String → Bool) (pre : List String) :
    pending p pre = ((lastWith p pre).map Fields).getD [] := by
  unfold pending
  cases lastWith p pre <;> rfl

theorem pendingHasValue_iff (p : String → Bool) (pre : List String) :
    pendingHasValue p pre = true ↔ 2 ≤ (pending p pre).length := by
  unfold pendingHasValue pending
  cases lastWith p pre <;> simp [hasValue]

theorem scanContexts_append (seg rest : List String) (final : Option String) (st : ScanState)
    (hcc : ∀ l ∈ seg, Contains l "current-context:" = false) :
    scanContexts (seg ++ rest) final st =
      (scanContexts seg none st).bind (fun s => scanContexts rest final s) := by
  induction seg generalizing st with
  | nil => simp [scanContexts, Except.bind]
  | cons l ls ih =>
    have h0 : Contains l "current-context:" = false := hcc l (List.mem_cons_self _ _)
    have hls : ∀ l ∈ ls, Contains l "current-context:" = false :=
      fun x hx => hcc x (List.mem_cons_of_mem _ hx)
    simp only [List.cons_append, scanContexts, h0, Bool.false_eq_true, if_false]
    repeat' split
    all_goals first | rfl | exact ih _ hls

/-- What a stretch of context-mode lines without the current-selection marker does to the
scanner state, when it is scanned without a panic. -/
theorem scanContexts_pending (seg : List String) (st st2 : ScanState)
    (hcc : ∀ l ∈ seg, Contains l "current-context:" = false)
    (h : scanContexts seg none st = .ok st2) :
    st2.clusterName = ((lastWith isClusterLine seg).map Fields).getD st.clusterName ∧
    st2.userName = ((lastWith isUserLine seg).map Fields).getD st.userName ∧
    st2.remoteAPIServers = st.remoteAPIServers ∧
    ∃ new, st2.remoteTargetClusters = st.remoteTargetClusters ++ new := by
  induction seg generalizing st with
  | nil =>
    simp only [scanContexts, Except.ok.injEq] at h
    subst h
    exact ⟨rfl, rfl, rfl, [], by simp⟩
  | cons l ls ih =>
    have h0 : Contains l "current-context:" = false := hcc l (List.mem_cons_self _ _)
    have hls : ∀ l ∈ ls, Contains l "current-context:" = false :=
      fun x hx => hcc x (List.mem_cons_of_mem _ hx)
    rw [lastWith_cons, lastWith_cons]
    cases h1 : Contains l "cluster:" with
    | true =>
      rw [scanContexts_cluster l ls none st h0 h1] at h
      obtain ⟨a, b, c, d⟩ := ih _ hls h
      refine ⟨?_, ?_, c, d⟩
      · rw [a]; cases lastWith isClusterLine ls <;> simp [isClusterLine, h1]
      · rw [b]; cases lastWith isUserLine ls <;> simp [isUserLine, h1]
    | false =>
      cases h2 : Contains l "user:" with
      | true =>
        rw [scanContexts_user l ls none st h0 h1 h2] at h
        obtain ⟨a, b, c, d⟩ := ih _ hls h
        refine ⟨?_, ?_, c, d⟩
        · rw [a]; cases lastWith isClusterLine ls <;> simp [isClusterLine, h1]
        · rw [b]; cases lastWith isUserLine ls <;> simp [isUserLine, h1, h2]
      | false =>
        cases h3 : Contains l "name:" with
        | true =>
          obtain ⟨ctx, cl, us, hc, hcl, hus⟩ := scanContexts_name_ok l ls none st st2 h0 h1 h2 h3 h
          rw [scanContexts_name l ls none st h0 h1 h2 h3 ctx cl us hc hcl hus] at h
          obtain ⟨a, b, c, new, d⟩ := ih _ hls h
          refine ⟨?_, ?_, c, _ :: new, by simpa using d⟩
          · rw [a]; cases lastWith isClusterLine ls <;> simp [isClusterLine, h1]
          · rw [b]; cases lastWith isUserLine ls <;> simp [isUserLine, h1, h2]
        | false =>
          rw [scanContexts_other l ls none st h0 h1 h2 h3] at h
          obtain ⟨a, b, c, d⟩ := ih _ hls h
          refine ⟨?_, ?_, c, d⟩
          · rw [a]; cases lastWith isClusterLine ls <;> simp [isClusterLine, h1]
          · rw [b]; cases lastWith isUserLine ls <;> simp [isUserLine, h1, h2]

/-- A stretch of context-mode lines with no name line and no current-selection marker is
scanned without a panic and emits nothing. -/
theorem scanContexts_body (body : List String) (st : ScanState)
    (hb : ∀ l ∈ body, Contains l "current-context:" = false ∧
      (isClusterLine l = true ∨ isUserLine l = true ∨ Contains l "name:" = false)) :
    ∃ st2, scanContexts body none st = .ok st2 ∧
      st2.remoteTargetClusters = st.remoteTargetClusters := by
  induction body generalizing st with
  | nil => exact ⟨st, rfl, rfl⟩
  | cons l ls ih =>
    obtain ⟨h0, hk⟩ := hb l (List.mem_cons_self _ _)
    have hls : ∀ l ∈ ls, Contains l "current-context:" = false ∧
        (isClusterLine l = true ∨ isUserLine l = true ∨ Contains l "name:" = false) :=
      fun x hx => hb x (List.mem_cons_of_mem _ hx)
    cases h1 : Contains l "cluster:" with
    | true =>
      rw [scanContexts_cluster l ls none st h0 h1]
      exact ih _ hls
    | false =>
      cases h2 : Contains l "user:" with
      | true =>
        rw [scanContexts_user l ls none st h0 h1 h2]
        exact ih _ hls
      | false =>
        have h3 : Contains l "name:" = false := by
          rcases hk with h | h | h
          · simp [isClusterLine, h1] at h
          · simp [isUserLine, h2] at h
          · exact h
        rw [scanContexts_other l ls none st h0 h1 h2 h3]
        exact ih _ hls

end kubeconfig

/-! ## The scanner: well-formed documents -/

namespace kubeconfig

open strings

theorem pending_index (p : String → Bool) (body : List String) (init : List String)
    (h : pendingHasValue p body = true) :
    index (((lastWith p body).map Fields).getD init) 1 = .ok ((pending p body).getD 1 "") := by
  unfold pendingHasValue at h
  unfold pending
  cases hl : lastWith p body with
  | none => simp [hl] at h
  | some s =>
    simp only [hl, hasValue, decide_eq_true_eq] at h
    simpa using index_of_hasValue (Fields s) h

/-- A stretch of outer-mode lines with no name line and no contexts marker is scanned without
a panic and emits nothing. -/
theorem scanClusters_body (body rest : List String) (final : Option String) (st : ScanState)
    (hb : ∀ l ∈ body, Contains l "contexts:" = false ∧
      (isServerLine l = true ∨ Contains l "name:" = false)) :
    ∃ st2, scanClusters (body ++ rest) final st = scanClusters rest final st2 ∧
      st2.endPoint = ((lastWith isServerLine body).map Fields).getD st.endPoint ∧
      st2.remoteAPIServers = st.remoteAPIServers ∧
      st2.remoteTargetClusters = st.remoteTargetClusters ∧
      st2.clusterName = st.clusterName ∧ st2.userName = st.userName := by
  induction body generalizing st with
  | nil => exact ⟨st, rfl, rfl, rfl, rfl, rfl, rfl⟩
  | cons l ls ih =>
    obtain ⟨hm, hk⟩ := hb l (List.mem_cons_self _ _)
    have hls : ∀ l ∈ ls, Contains l "contexts:" = false ∧
        (isServerLine l = true ∨ Contains l "name:" = false) :=
      fun x hx => hb x (List.mem_cons_of_mem _ hx)
    rw [lastWith_cons]
    cases h1 : Contains l "server:" with
    | true =>
      obtain ⟨st2, e, a, b, c, d, f⟩ := ih { st with endPoint := Fields l } hls
      refine ⟨st2, ?_, ?_, b, c, d, f⟩
      · rw [List.cons_append, scanClusters_cons l _ final st _ (scanServer_server l st h1) hm, e]
      · rw [a]; cases lastWith isServerLine ls <;> simp [isServerLine, h1]
    | false =>
      have h3 : Contains l "name:" = false := by
        rcases hk with h | h
        · simp [isServerLine, h1] at h
        · exact h
      obtain ⟨st2, e, a, b, c, d, f⟩ := ih st hls
      refine ⟨st2, ?_, ?_, b, c, d, f⟩
      · rw [List.cons_append, scanClusters_cons l _ final st _ (scanServer_other l st h1 h3) hm, e]
      · rw [a]; cases lastWith isServerLine ls <;> simp [isServerLine, h1]

theorem scanClusters_entries (entries : List ClusterEntry) (rest : List String)
    (final : Option String) (st : ScanState)
    (hwf : ∀ e ∈ entries, e.WellFormed) :
    ∃ st2, scanClusters (concatLines (entries.map ClusterEntry.lines) ++ rest) final st =
        scanClusters rest final st2 ∧
      st2.remoteAPIServers = st.remoteAPIServers ++ entries.map ClusterEntry.record ∧
      st2.remoteTargetClusters = st.remoteTargetClusters ∧
      st2.clusterName = st.clusterName ∧ st2.userName = st.userName := by
  induction entries generalizing st with
  | nil => exact ⟨st, rfl, by simp, rfl, rfl, rfl⟩
  | cons e es ih =>
    obtain ⟨hbody, hpend, hname, hmark, hval⟩ := hwf e (List.mem_cons_self _ _)
    have hes : ∀ e ∈ es, e.WellFormed := fun x hx => hwf x (List.mem_cons_of_mem _ hx)
    obtain ⟨st1, e1, a1, b1, c1, d1, f1⟩ :=
      scanClusters_body e.body (e.name :: (concatLines (es.map ClusterEntry.lines) ++ rest))
        final st hbody
    simp only [isServerNameLine, Bool.and_eq_true, Bool.not_eq_true', hasValue,
      decide_eq_true_eq] at hname hval
    have hstep : scanServer e.name st1 = .ok
        { st1 with serverName := Fields e.name,
                   remoteAPIServers := st1.remoteAPIServers ++ [e.record] } := by
      refine scanServer_name e.name st1 hname.2 hname.1 _ _
        (index_of_hasValue (Fields e.name) hval) ?_
      rw [a1]
      exact pending_index isServerLine e.body st.endPoint hpend
    obtain ⟨st2, e2, b2, c2, d2, f2⟩ := ih
      { st1 with serverName := Fields e.name,
                 remoteAPIServers := st1.remoteAPIServers ++ [e.record] } hes
    refine ⟨st2, ?_, ?_, ?_, ?_, ?_⟩
    · simp only [List.map_cons, concatLines, ClusterEntry.lines, List.append_assoc,
        List.cons_append, List.nil_append]
      rw [e1, scanClusters_cons e.name _ final st1 _ hstep hmark, e2]
    · rw [b2]; simp [b1]
    · rw [c2]; exact c1
    · rw [d2]; exact d1
    · rw [f2]; exact f1

theorem scanContexts_entries (entries : List ContextEntry) (rest : List String)
    (final : Option String) (st : ScanState)
    (hwf : ∀ e ∈ entries, e.WellFormed) :
    ∃ st2, scanContexts (concatLines (entries.map ContextEntry.lines) ++ rest) final st =
        scanContexts rest final st2 ∧
      st2.remoteTargetClusters = st.remoteTargetClusters ++ entries.map ContextEntry.record ∧
      st2.remoteAPIServers = st.remoteAPIServers := by
  induction entries generalizing st with
  | nil => exact ⟨st, rfl, by simp, rfl⟩
  | cons e es ih =>
    obtain ⟨hbody, hcl, hus, hname, hval⟩ := hwf e (List.mem_cons_self _ _)
    have hes : ∀ e ∈ es, e.WellFormed := fun x hx => hwf x (List.mem_cons_of_mem _ hx)
    have hcc : ∀ l ∈ e.body, Contains l "current-context:" = false := fun l hl => (hbody l hl).1
    obtain ⟨st1, e1, t1⟩ := scanContexts_body e.body st hbody
    obtain ⟨a1, b1, c1, _⟩ := scanContexts_pending e.body st st1 hcc e1
    simp only [isContextNameLine, Bool.and_eq_true, Bool.not_eq_true', hasValue,
      decide_eq_true_eq] at hname hval
    obtain ⟨⟨⟨h3, h0⟩, h1⟩, h2⟩ := hname
    have hstep : ∀ tail, scanContexts (e.name :: tail) final st1 = scanContexts tail final
        { st1 with contextName := Fields e.name,
                   remoteTargetClusters := st1.remoteTargetClusters ++ [e.record] } := by
      intro tail
      refine scanContexts_name e.name tail final st1 h0 h1 h2 h3 _ _ _
        (index_of_hasValue (Fields e.name) hval) ?_ ?_
      · rw [a1]; exact pending_index isClusterLine e.body st.clusterName hcl
      · rw [b1]; exact pending_index isUserLine e.body st.userName hus
    obtain ⟨st2, e2, t2, c2⟩ := ih
      { st1 with contextName := Fields e.name,
                 remoteTargetClusters := st1.remoteTargetClusters ++ [e.record] } hes
    refine ⟨st2, ?_, ?_, ?_⟩
    · simp only [List.map_cons, concatLines, ContextEntry.lines, List.append_assoc,
        List.cons_append, List.nil_append]
      rw [scanContexts_append e.body _ final st hcc, e1]
      simp only [Except.bind]
      rw [hstep, e2]
    · rw [t2]; simp [t1]
    · rw [c2]; exact c1

/-- The scan of a well-formed document. -/
theorem parseLines_document (clusters : List ClusterEntry) (marker : String)
    (contexts : List ContextEntry) (current : String) (rest : List String)
    (hclusters : ∀ e ∈ clusters, e.WellFormed)
    (hmarker : Contains marker "contexts:" = true ∧ Contains marker "server:" = false ∧
      Contains marker "name:" = false)
    (hcontexts : ∀ e ∈ contexts, e.WellFormed)
    (hcurrent : Contains current "current-context:" = true)
    (s : bufio.Scanned) (hs : s.lines = documentLines clusters marker contexts current rest) :
    parseLines s =
      .ok ⟨clusters.map ClusterEntry.record, contexts.map ContextEntry.record⟩ := by
  obtain ⟨st1, e1, a1, b1, _, _⟩ := scanClusters_entries clusters
    (marker :: (concatLines (contexts.map ContextEntry.lines) ++ current :: rest)) s.final {}
    hclusters
  obtain ⟨st2, e2, a2, b2⟩ :=
    scanContexts_entries contexts (current :: rest) s.final st1 hcontexts
  unfold parseLines
  rw [hs]
  unfold documentLines
  rw [e1, scanClusters_marker marker _ s.final st1 st1
    (scanServer_other marker st1 hmarker.2.1 hmarker.2.2)
    hmarker.1, e2, scanContexts_current current rest s.final st2 hcurrent]
  simp only [a2, b2, a1, b1]
  simp

end kubeconfig

/-- C1 as amended: parse completeness. When the scanner delivers a document as K well-formed
cluster entries, the contexts marker line, M well-formed context entries and the
current-selection line (anything may follow), `ReadKubeconfig` returns without error exactly K
`RemoteAPIServer` and M `TargetCluster` records, the i-th record being the one built from the
i-th entry of its section. An entry is well-formed when the scanner takes each of its lines for
what it is: no line carries a marker that the switch tests before the marker of its kind, or
the marker of the other scanning mode, and the endpoint, cluster, user and name lines have a
value. -/
theorem parse_completeness
    (cli : client.ObjectKey → Except Error corev1.Secret) (secret : corev1.Secret)
    (clusters : List kubeconfig.ClusterEntry) (marker : String)
    (contexts : List kubeconfig.ContextEntry) (current : String) (rest : List String)
    (hget : cli kubeconfig.secretKey = .ok secret)
    (hdoc : (bufio.scanLines (kubeconfig.kubeconfigOf secret)).lines =
      kubeconfig.documentLines clusters marker contexts current rest)
    (hclusters : ∀ e ∈ clusters, e.WellFormed)
    (hmarker : strings.Contains marker "contexts:" = true ∧
      strings.Contains marker "server:" = false ∧ strings.Contains marker "name:" = false)
    (hcontexts : ∀ e ∈ contexts, e.WellFormed)
    (hcurrent : strings.Contains current "current-context:" = true) :
    ∃ r, kubeconfig.ReadKubeconfig cli = .ok r ∧ r.err = none ∧
      r.remoteAPIServers.length = clusters.length ∧
      r.remoteTargetClusters.length = contexts.length ∧
      r.remoteAPIServers = clusters.map kubeconfig.ClusterEntry.record ∧
      r.remoteTargetClusters = contexts.map kubeconfig.ContextEntry.record := by
  refine ⟨{ kubeconfig := kubeconfig.kubeconfigOf secret,
            remoteAPIServers := clusters.map kubeconfig.ClusterEntry.record,
            remoteTargetClusters := contexts.map kubeconfig.ContextEntry.record,
            err := none }, ?_, rfl, by simp, by simp, rfl, rfl⟩
  simp only [kubeconfig.ReadKubeconfig, hget,
    kubeconfig.parseLines_document clusters marker contexts current rest hclusters hmarker
      hcontexts hcurrent _ hdoc]

/-- Witness of `parse_completeness`: the document of two clusters and two contexts that
`kubectl config view` prints, with the sections behind the current-selection line. -/
theorem parse_completeness_witness :
    ∃ r, kubeconfig.ReadKubeconfig (fake.env.GetSecret { secret := some ⟨[("config",
        "apiVersion: v1\nclusters:\n- cluster:\n    certificate-authority-data: DATA+OMITTED\n    server: https://10.0.0.1:6443\n  name: cluster-a\n- cluster:\n    server: https://hostname:6443\n  name: cluster-b\ncontexts:\n- context:\n    cluster: cluster-a\n    user: user-a\n  name: ctx-a\n- context:\n    cluster: cluster-b\n    namespace: dev\n    user: user-b\n  name: ctx-b\ncurrent-context: ctx-a\nkind: Config\nusers:\n- name: user-a\n")]⟩ })
          = .ok r ∧ r.err = none ∧
      r.remoteAPIServers.length = 2 ∧ r.remoteTargetClusters.length = 2 ∧
      r.remoteAPIServers =
        [⟨"cluster-a", "https://10.0.0.1:6443"⟩, ⟨"cluster-b", "https://hostname:6443"⟩] ∧
      r.remoteTargetClusters =
        [⟨"ctx-a", "cluster-a", "user-a"⟩, ⟨"ctx-b", "cluster-b", "user-b"⟩] :=
  parse_completeness _ _
    [⟨["apiVersion: v1", "clusters:", "- cluster:",
        "    certificate-authority-data: DATA+OMITTED", "    server: https://10.0.0.1:6443"],
      "  name: cluster-a"⟩,
     ⟨["- cluster:", "    server: https://hostname:6443"], "  name: cluster-b"⟩]
    "contexts:"
    [⟨["- context:", "    cluster: cluster-a", "    user: user-a"], "  name: ctx-a"⟩,
     ⟨["- context:", "    cluster: cluster-b", "    namespace: dev", "    user: user-b"],
      "  name: ctx-b"⟩]
    "current-context: ctx-a" ["kind: Config", "users:", "- name: user-a"]
    rfl (by decide)
    (by
      intro e he
      simp only [List.mem_cons, List.mem_singleton, List.not_mem_nil, or_false] at he
      rcases he with rfl | rfl <;> (unfold kubeconfig.ClusterEntry.WellFormed; decide))
    (by decide)
    (by
      intro e he
      simp only [List.mem_cons, List.mem_singleton, List.not_mem_nil, or_false] at he
      rcases he with rfl | rfl <;> (unfold kubeconfig.ContextEntry.WellFormed; decide))
    (by decide)

/-- C1 as stated fails. Both documents have the shape the claim gives, one cluster entry and
one context entry, every line with the marker of its kind and a value, and the scanner
delivers every line. In the first the user is named `prod-cluster:admin`: the user line
contains the cluster marker, the scanner takes it for a cluster line, and `ReadKubeconfig`
panics at `userName[1]` instead of returning one `TargetCluster`. In the second the cluster is
named `tls-server:443`: the name line contains the endpoint marker, the scanner takes it for
an endpoint line, and `ReadKubeconfig` returns no `RemoteAPIServer` for the one cluster entry. -/
theorem stated_shape_is_not_enough :
    (kubeconfig.StatedDocument.WellFormed
        { clusters := [("    server: https://10.0.0.1:6443", "  name: cluster-a")],
          marker := "contexts:",
          contexts := [("    cluster: cluster-a", "    user: prod-cluster:admin", "  name: ctx-a")],
          current := "current-context: ctx-a" } ∧
      bufio.scanLines
          "    server: https://10.0.0.1:6443\n  name: cluster-a\ncontexts:\n    cluster: cluster-a\n    user: prod-cluster:admin\n  name: ctx-a\ncurrent-context: ctx-a\n" =
        { lines := kubeconfig.StatedDocument.lines
            { clusters := [("    server: https://10.0.0.1:6443", "  name: cluster-a")],
              marker := "contexts:",
              contexts :=
                [("    cluster: cluster-a", "    user: prod-cluster:admin", "  name: ctx-a")],
              current := "current-context: ctx-a" },
          final := none } ∧
      kubeconfig.ReadKubeconfig (fun _ => .ok ⟨[("config",
          "    server: https://10.0.0.1:6443\n  name: cluster-a\ncontexts:\n    cluster: cluster-a\n    user: prod-cluster:admin\n  name: ctx-a\ncurrent-context: ctx-a\n")]⟩) =
        .error { index := 1, length := 0 }) ∧
    (kubeconfig.StatedDocument.WellFormed
        { clusters := [("    server: https://10.0.0.1:443", "  name: tls-server:443")],
          marker := "contexts:",
          contexts := [("    cluster: tls-server:443", "    user: user-a", "  name: ctx-a")],
          current := "current-context: ctx-a" } ∧
      bufio.scanLines
          "    server: https://10.0.0.1:443\n  name: tls-server:443\ncontexts:\n    cluster: tls-server:443\n    user: user-a\n  name: ctx-a\ncurrent-context: ctx-a\n" =
        { lines := kubeconfig.StatedDocument.lines
            { clusters := [("    server: https://10.0.0.1:443", "  name: tls-server:443")],
              marker := "contexts:",
              contexts := [("    cluster: tls-server:443", "    user: user-a", "  name: ctx-a")],
              current := "current-context: ctx-a" },
          final := none } ∧
      (kubeconfig.ReadKubeconfig (fun _ => .ok ⟨[("config",
          "    server: https://10.0.0.1:443\n  name: tls-server:443\ncontexts:\n    cluster: tls-server:443\n    user: user-a\n  name: ctx-a\ncurrent-context: ctx-a\n")]⟩)).map
        kubeconfig.Result.records = .ok ([], [⟨"ctx-a", "tls-server:443", "user-a"⟩])) := by
  refine ⟨⟨?_, by decide, rfl⟩, ⟨?_, by decide, rfl⟩⟩
  · unfold kubeconfig.StatedDocument.WellFormed; decide
  · unfold kubeconfig.StatedDocument.WellFormed; decide

/-! ## The scanner: emitted target clusters -/

namespace kubeconfig

open strings

theorem scanServer_frame (l : String) (st st1 : ScanState) (h : scanServer l st = .ok st1) :
    st1.clusterName = st.clusterName ∧ st1.userName = st.userName ∧
      st1.remoteTargetClusters = st.remoteTargetClusters := by
  cases h1 : Contains l "server:" with
  | true =>
    rw [scanServer_server l st h1] at h
    cases h; exact ⟨rfl, rfl, rfl⟩
  | false =>
    cases h2 : Contains l "name:" with
    | false =>
      rw [scanServer_other l st h1 h2] at h
      cases h; exact ⟨rfl, rfl, rfl⟩
    | true =>
      cases hn : index (Fields l) 1 with
      | error p => simp [scanServer, h1, h2, hn] at h
      | ok nm =>
        cases he : index st.endPoint 1 with
        | error p => simp [scanServer, h1, h2, hn, he] at h
        | ok ep =>
          rw [scanServer_name l st h1 h2 nm ep hn he] at h
          cases h; exact ⟨rfl, rfl, rfl⟩

/-- The outer loop up to the contexts marker leaves the context-mode variables alone. -/
theorem scanClusters_outer (head : List String) (marker : String) (tail : List String)
    (final : Option String)
    (st st2 : ScanState) (hhead : ∀ l ∈ head, Contains l "contexts:" = false)
    (hmarker : Contains marker "contexts:" = true)
    (h : scanClusters (head ++ marker :: tail) final st = .ok st2) :
    ∃ st1, scanContexts tail final st1 = .ok st2 ∧ st1.clusterName = st.clusterName ∧
      st1.userName = st.userName ∧ st1.remoteTargetClusters = st.remoteTargetClusters := by
  induction head generalizing st with
  | nil =>
    simp only [List.nil_append, scanClusters] at h
    cases hs : scanServer marker st with
    | error p => simp [hs] at h
    | ok st1 =>
      simp only [hs, hmarker, Bool.not_true, Bool.false_eq_true, if_false] at h
      obtain ⟨a, b, c⟩ := scanServer_frame marker st st1 hs
      exact ⟨st1, h, a, b, c⟩
  | cons l ls ih =>
    have hl : Contains l "contexts:" = false := hhead l (List.mem_cons_self _ _)
    have hls : ∀ l ∈ ls, Contains l "contexts:" = false :=
      fun x hx => hhead x (List.mem_cons_of_mem _ hx)
    simp only [List.cons_append, scanClusters] at h
    cases hs : scanServer l st with
    | error p => simp [hs] at h
    | ok st1 =>
      simp only [hs, hl, Bool.not_false, if_true] at h
      obtain ⟨a, b, c⟩ := scanServer_frame l st st1 hs
      obtain ⟨st3, e, a3, b3, c3⟩ := ih st1 hls h
      exact ⟨st3, e, a3.trans a, b3.trans b, c3.trans c⟩

/-- Target clusters are only ever appended. -/
theorem scanContexts_grow (seg : List String) (final : Option String) (st st2 : ScanState)
    (h : scanContexts seg final st = .ok st2) :
    ∃ new, st2.remoteTargetClusters = st.remoteTargetClusters ++ new := by
  induction seg generalizing st with
  | nil =>
    cases final with
    | none =>
      simp only [scanContexts, Except.ok.injEq] at h
      subst h
      exact ⟨[], by simp⟩
    | some head =>
      simp only [scanContexts] at h
      exact ⟨[], by simp [(scanServer_frame head st st2 h).2.2]⟩
  | cons l ls ih =>
    cases h0 : Contains l "current-context:" with
    | true =>
      rw [scanContexts_current l ls final st h0] at h
      cases h
      exact ⟨[], by simp⟩
    | false =>
      cases h1 : Contains l "cluster:" with
      | true =>
        rw [scanContexts_cluster l ls final st h0 h1] at h
        have := ih _ h
        exact this
      | false =>
        cases h2 : Contains l "user:" with
        | true =>
          rw [scanContexts_user l ls final st h0 h1 h2] at h
          have := ih _ h
          exact this
        | false =>
          cases h3 : Contains l "name:" with
          | true =>
            obtain ⟨ctx, cl, us, hc, hcl, hus⟩ := scanContexts_name_ok l ls final st st2 h0 h1 h2 h3 h
            rw [scanContexts_name l ls final st h0 h1 h2 h3 ctx cl us hc hcl hus] at h
            obtain ⟨new, d⟩ := ih _ h
            exact ⟨_ :: new, by simpa using d⟩
          | false =>
            rw [scanContexts_other l ls final st h0 h1 h2 h3] at h
            exact ih _ h

/-- One target cluster is emitted per name line. -/
theorem scanContexts_count (seg : List String) (st st2 : ScanState)
    (hcc : ∀ l ∈ seg, Contains l "current-context:" = false)
    (h : scanContexts seg none st = .ok st2) :
    st2.remoteTargetClusters.length =
      st.remoteTargetClusters.length + seg.countP isContextNameLine := by
  induction seg generalizing st with
  | nil =>
    simp only [scanContexts, Except.ok.injEq] at h
    subst h
    simp
  | cons l ls ih =>
    have h0 : Contains l "current-context:" = false := hcc l (List.mem_cons_self _ _)
    have hls : ∀ l ∈ ls, Contains l "current-context:" = false :=
      fun x hx => hcc x (List.mem_cons_of_mem _ hx)
    cases h1 : Contains l "cluster:" with
    | true =>
      rw [scanContexts_cluster l ls none st h0 h1] at h
      rw [ih _ hls h]
      simp [List.countP_cons, isContextNameLine, h1]
    | false =>
      cases h2 : Contains l "user:" with
      | true =>
        rw [scanContexts_user l ls none st h0 h1 h2] at h
        rw [ih _ hls h]
        simp [List.countP_cons, isContextNameLine, h2]
      | false =>
        cases h3 : Contains l "name:" with
        | true =>
          obtain ⟨ctx, cl, us, hc, hcl, hus⟩ := scanContexts_name_ok l ls none st st2 h0 h1 h2 h3 h
          rw [scanContexts_name l ls none st h0 h1 h2 h3 ctx cl us hc hcl hus] at h
          rw [ih _ hls h]
          simp [List.countP_cons, isContextNameLine, h0, h1, h2, h3]
          omega
        | false =>
          rw [scanContexts_other l ls none st h0 h1 h2 h3] at h
          rw [ih _ hls h]
          simp [List.countP_cons, isContextNameLine, h3]

/-- The record emitted at a name line of the context section. -/
theorem scanContexts_emitted (pre : List String) (nm : String) (post : List String)
    (final : Option String)
    (st st2 : ScanState) (hcc : ∀ l ∈ pre, Contains l "current-context:" = false)
    (hname : isContextNameLine nm = true)
    (hcl0 : st.clusterName = []) (hus0 : st.userName = [])
    (h : scanContexts (pre ++ nm :: post) final st = .ok st2) :
    ∃ c u, lastWith isClusterLine pre = some c ∧ lastWith isUserLine pre = some u ∧
      st2.remoteTargetClusters[st.remoteTargetClusters.length + pre.countP isContextNameLine]? =
        some { ContextName := valueOf nm, ClusterName := valueOf c, UserName := valueOf u } := by
  rw [scanContexts_append pre _ final st hcc] at h
  cases h1 : scanContexts pre none st with
  | error p => simp [h1, Except.bind] at h
  | ok st1 =>
    simp only [h1, Except.bind] at h
    simp only [isContextNameLine, Bool.and_eq_true, Bool.not_eq_true'] at hname
    obtain ⟨⟨⟨n3, n0⟩, n1⟩, n2⟩ := hname
    obtain ⟨ctx, cl, us, hc, hcl, hus⟩ := scanContexts_name_ok nm post final st1 st2 n0 n1 n2 n3 h
    rw [scanContexts_name nm post final st1 n0 n1 n2 n3 ctx cl us hc hcl hus] at h
    obtain ⟨new, hnew⟩ := scanContexts_grow post final _ st2 h
    obtain ⟨a, b, _, _⟩ := scanContexts_pending pre st st1 hcc h1
    have hlen := scanContexts_count pre st st1 hcc h1
    rw [hcl0] at a
    rw [hus0] at b
    cases hlc : lastWith isClusterLine pre with
    | none => rw [a, hlc] at hcl; simp [index] at hcl
    | some c =>
      cases hlu : lastWith isUserLine pre with
      | none => rw [b, hlu] at hus; simp [index] at hus
      | some u =>
        refine ⟨c, u, rfl, rfl, ?_⟩
        rw [a, hlc] at hcl
        rw [b, hlu] at hus
        simp only [Option.map_some', Option.getD_some] at hcl hus
        have e1 := (index_ok_getD _ _ hc).2
        have e2 := (index_ok_getD _ _ hcl).2
        have e3 := (index_ok_getD _ _ hus).2
        rw [hnew, ← hlen]
        simp only [valueOf, e1, e2, e3]
        rw [List.append_assoc, List.getElem?_append_right (Nat.le_refl _)]
        simp

end kubeconfig

namespace kubeconfig

open strings

theorem ReadKubeconfig_scan (cli : client.ObjectKey → Except Error corev1.Secret)
    (secret : corev1.Secret) (r : Result) (hget : cli secretKey = .ok secret)
    (hok : ReadKubeconfig cli = .ok r) :
    ∃ st, scanClusters (bufio.scanLines (kubeconfigOf secret)).lines
        (bufio.scanLines (kubeconfigOf secret)).final {} = .ok st ∧
      r.remoteAPIServers = st.remoteAPIServers ∧
      r.remoteTargetClusters = st.remoteTargetClusters ∧ r.err = none := by
  simp only [ReadKubeconfig, hget, parseLines] at hok
  cases hs : scanClusters (bufio.scanLines (kubeconfigOf secret)).lines
      (bufio.scanLines (kubeconfigOf secret)).final {} with
  | error p => simp [hs] at hok
  | ok st =>
    simp only [hs, Except.ok.injEq] at hok
    subst hok
    exact ⟨st, rfl, rfl, rfl, rfl⟩

end kubeconfig

/-- C9 as amended: pending values are not reset between context entries. The target cluster
emitted at a name line scanned in context mode (the k-th such line gives the k-th record) has
`ClusterName` equal to the second token of the most recent preceding line containing the
cluster marker, and `UserName` equal to the second token of the most recent preceding line
containing the user marker and not the cluster marker. The lines of the document are those the
scanner delivers. -/
theorem pending_values_not_reset
    (cli : client.ObjectKey → Except Error corev1.Secret) (secret : corev1.Secret)
    (head : List String) (marker : String) (pre : List String) (nm : String)
    (post : List String) (r : kubeconfig.Result)
    (hget : cli kubeconfig.secretKey = .ok secret)
    (hdoc : (bufio.scanLines (kubeconfig.kubeconfigOf secret)).lines =
      head ++ marker :: (pre ++ nm :: post))
    (hhead : ∀ l ∈ head, strings.Contains l "contexts:" = false)
    (hmarker : strings.Contains marker "contexts:" = true)
    (hpre : ∀ l ∈ pre, strings.Contains l "current-context:" = false)
    (hname : kubeconfig.isContextNameLine nm = true)
    (hok : kubeconfig.ReadKubeconfig cli = .ok r) :
    ∃ c u, kubeconfig.lastWith kubeconfig.isClusterLine (head ++ marker :: pre) = some c ∧
      kubeconfig.lastWith kubeconfig.isUserLine (head ++ marker :: pre) = some u ∧
      r.remoteTargetClusters[pre.countP kubeconfig.isContextNameLine]? =
        some { ContextName := kubeconfig.valueOf nm, ClusterName := kubeconfig.valueOf c,
               UserName := kubeconfig.valueOf u } := by
  obtain ⟨st, hs, _, ht, _⟩ := kubeconfig.ReadKubeconfig_scan cli secret r hget hok
  rw [hdoc] at hs
  obtain ⟨st1, hctx, hcl, hus, htc⟩ :=
    kubeconfig.scanClusters_outer head marker _ _ {} st hhead hmarker hs
  obtain ⟨c, u, hc, hu, hrec⟩ :=
    kubeconfig.scanContexts_emitted pre nm post _ st1 st hpre hname hcl hus hctx
  refine ⟨c, u, ?_, ?_, ?_⟩
  · rw [show head ++ marker :: pre = (head ++ [marker]) ++ pre by simp,
      kubeconfig.lastWith_append, hc]
    rfl
  · rw [show head ++ marker :: pre = (head ++ [marker]) ++ pre by simp,
      kubeconfig.lastWith_append, hu]
    rfl
  · rw [ht]
    rw [htc] at hrec
    simpa using hrec

/-- Witness of `pending_values_not_reset`: the second context entry has no cluster line of its
own and is emitted with the cluster name of the first. -/
theorem pending_values_not_reset_witness :
    ∃ c u, kubeconfig.lastWith kubeconfig.isClusterLine
        (["clusters:", "    server: https://10.0.0.1:6443", "  name: cluster-a"] ++ "contexts:" ::
          ["    cluster: cluster-a", "    user: user-a", "  name: ctx-a", "    user: user-b"])
        = some c ∧
      kubeconfig.lastWith kubeconfig.isUserLine
        (["clusters:", "    server: https://10.0.0.1:6443", "  name: cluster-a"] ++ "contexts:" ::
          ["    cluster: cluster-a", "    user: user-a", "  name: ctx-a", "    user: user-b"])
        = some u ∧
      [(⟨"ctx-a", "cluster-a", "user-a"⟩ : kubeconfig.TargetCluster),
        ⟨"ctx-b", "cluster-a", "user-b"⟩][List.countP kubeconfig.isContextNameLine
          ["    cluster: cluster-a", "    user: user-a", "  name: ctx-a", "    user: user-b"]]? =
        some { ContextName := kubeconfig.valueOf "  name: ctx-b",
               ClusterName := kubeconfig.valueOf c, UserName := kubeconfig.valueOf u } :=
  pending_values_not_reset
    (fake.env.GetSecret { secret := some ⟨[("config",
      "clusters:\n    server: https://10.0.0.1:6443\n  name: cluster-a\ncontexts:\n    cluster: cluster-a\n    user: user-a\n  name: ctx-a\n    user: user-b\n  name: ctx-b\ncurrent-context: ctx-a\n")]⟩ })
    _ ["clusters:", "    server: https://10.0.0.1:6443", "  name: cluster-a"] "contexts:"
    ["    cluster: cluster-a", "    user: user-a", "  name: ctx-a", "    user: user-b"]
    "  name: ctx-b" ["current-context: ctx-a"]
    { kubeconfig := "clusters:\n    server: https://10.0.0.1:6443\n  name: cluster-a\ncontexts:\n    cluster: cluster-a\n    user: user-a\n  name: ctx-a\n    user: user-b\n  name: ctx-b\ncurrent-context: ctx-a\n",
      remoteAPIServers := [⟨"cluster-a", "https://10.0.0.1:6443"⟩],
      remoteTargetClusters := [⟨"ctx-a", "cluster-a", "user-a"⟩, ⟨"ctx-b", "cluster-a", "user-b"⟩],
      err := none }
    rfl (by decide) (by decide) (by decide) (by decide) (by decide) rfl

/-- C9 as stated fails: a line that contains the user marker and the cluster marker is a
cluster line to the scanner. The user line of the second entry names the user
`prod-cluster:admin`; it is the most recent line containing the user marker in front of the name
line of `ctx-b`, and the emitted `UserName` is `user-a`, the pending value of the first
entry. -/
theorem user_marker_on_cluster_line :
    kubeconfig.lastWith kubeconfig.containsUser
        ["contexts:", "    cluster: cluster-a", "    user: user-a", "  name: ctx-a",
          "    cluster: cluster-b", "    user: prod-cluster:admin"] =
      some "    user: prod-cluster:admin" ∧
    kubeconfig.valueOf "    user: prod-cluster:admin" = "prod-cluster:admin" ∧
    (kubeconfig.ReadKubeconfig (fun _ => .ok ⟨[("config",
        "contexts:\n    cluster: cluster-a\n    user: user-a\n  name: ctx-a\n    cluster: cluster-b\n    user: prod-cluster:admin\n  name: ctx-b\ncurrent-context: ctx-a\n")]⟩)).map
      kubeconfig.Result.records =
      .ok ([], [⟨"ctx-a", "cluster-a", "user-a"⟩, ⟨"ctx-b", "prod-cluster:admin", "user-a"⟩]) ∧
    (⟨"ctx-b", "prod-cluster:admin", "user-a"⟩ : kubeconfig.TargetCluster).UserName ≠
      kubeconfig.valueOf "    user: prod-cluster:admin" := by
  refine ⟨by decide, by decide, rfl, by decide⟩

/-! ## The scanner: index safety -/

namespace kubeconfig

open strings

theorem pending_snoc (p : String → Bool) (pre : List String) (l : String) :
    pending p (pre ++ [l]) = if p l then Fields l else pending p pre := by
  unfold pending
  rw [lastWith_snoc]
  cases p l <;> simp

theorem scanServer_safe (l : String) (done : List String) (st : ScanState)
    (hep : st.endPoint = pending isServerLine done)
    (h : (!isServerNameLine l || (hasValue l && pendingHasValue isServerLine done)) = true) :
    ∃ st1, scanServer l st = .ok st1 ∧ st1.endPoint = pending isServerLine (done ++ [l]) := by
  cases h1 : Contains l "server:" with
  | true =>
    exact ⟨_, scanServer_server l st h1, by simp [pending_snoc, isServerLine, h1]⟩
  | false =>
    cases h2 : Contains l "name:" with
    | false =>
      exact ⟨_, scanServer_other l st h1 h2, by simp [pending_snoc, isServerLine, h1, hep]⟩
    | true =>
      simp only [isServerNameLine, h1, h2, Bool.not_false, Bool.and_self, Bool.not_true,
        Bool.false_or, Bool.and_eq_true, hasValue, decide_eq_true_eq, pendingHasValue_iff] at h
      obtain ⟨hv, hp⟩ := h
      rw [← hep] at hp
      exact ⟨_, scanServer_name l st h1 h2 _ _ (index_of_hasValue _ hv) (index_of_hasValue _ hp),
        by simp [pending_snoc, isServerLine, h1, hep]⟩

/-- The inner loop does not panic when every name line has a value and follows a cluster line
and a user line with a value, and the buffered head of a line that did not fit, which the outer
switch looks at when the inner loop runs out of lines, is safe for the outer switch. -/
theorem scanContexts_safe (rem done : List String) (final : Option String)
    (outer : List String) (st : ScanState)
    (hcl : st.clusterName = pending isClusterLine done)
    (hus : st.userName = pending isUserLine done)
    (hep : st.endPoint = pending isServerLine outer)
    (h : everyLine (fun pre l => !isContextNameLine l ||
      (hasValue l && pendingHasValue isClusterLine pre && pendingHasValue isUserLine pre))
      done (untilCurrentContext rem) = true)
    (hf : everyLine (fun pre l => !isServerNameLine l ||
      (hasValue l && pendingHasValue isServerLine pre)) outer
      (if rem.all (fun x => !Contains x "current-context:") then final.toList else []) = true) :
    ∃ st2, scanContexts rem final st = .ok st2 := by
  induction rem generalizing done st with
  | nil =>
    cases final with
    | none => exact ⟨st, rfl⟩
    | some head =>
      simp only [List.all_nil, if_true, Option.toList, everyLine, Bool.and_true] at hf
      obtain ⟨st1, hs, _⟩ := scanServer_safe head outer st hep hf
      exact ⟨st1, by simpa only [scanContexts] using hs⟩
  | cons l ls ih =>
    cases h0 : Contains l "current-context:" with
    | true => exact ⟨st, scanContexts_current l ls final st h0⟩
    | false =>
      simp only [untilCurrentContext, h0, Bool.false_eq_true, if_false, everyLine,
        Bool.and_eq_true] at h
      simp only [List.all_cons, h0, Bool.not_false, Bool.true_and] at hf
      obtain ⟨hl, hrest⟩ := h
      cases h1 : Contains l "cluster:" with
      | true =>
        rw [scanContexts_cluster l ls final st h0 h1]
        refine ih (done ++ [l]) _ ?_ ?_ hep hrest hf
        · simp [pending_snoc, isClusterLine, h1]
        · simp [pending_snoc, isUserLine, h1, hus]
      | false =>
        cases h2 : Contains l "user:" with
        | true =>
          rw [scanContexts_user l ls final st h0 h1 h2]
          refine ih (done ++ [l]) _ ?_ ?_ hep hrest hf
          · simp [pending_snoc, isClusterLine, h1, hcl]
          · simp [pending_snoc, isUserLine, h1, h2]
        | false =>
          cases h3 : Contains l "name:" with
          | true =>
            simp only [isContextNameLine, h0, h1, h2, h3, Bool.not_false, Bool.and_self,
              Bool.not_true, Bool.false_or, Bool.and_eq_true, hasValue, decide_eq_true_eq,
              pendingHasValue_iff] at hl
            obtain ⟨⟨hv, hc⟩, hu⟩ := hl
            rw [← hcl] at hc
            rw [← hus] at hu
            rw [scanContexts_name l ls final st h0 h1 h2 h3 _ _ _ (index_of_hasValue _ hv)
              (index_of_hasValue _ hc) (index_of_hasValue _ hu)]
            refine ih (done ++ [l]) _ ?_ ?_ hep hrest hf
            · simp [pending_snoc, isClusterLine, h1, hcl]
            · simp [pending_snoc, isUserLine, h2, hus]
          | false =>
            rw [scanContexts_other l ls final st h0 h1 h2 h3]
            refine ih (done ++ [l]) _ ?_ ?_ hep hrest hf
            · simp [pending_snoc, isClusterLine, h1, hcl]
            · simp [pending_snoc, isUserLine, h2, hus]

/-- The whole scan does not panic under the index-safety precondition. -/
theorem scanClusters_safe (rem done : List String) (final : Option String) (st : ScanState)
    (hep : st.endPoint = pending isServerLine done)
    (hcl : st.clusterName = []) (hus : st.userName = [])
    (h1 : everyLine (fun pre l => !isServerNameLine l ||
      (hasValue l && pendingHasValue isServerLine pre)) done
      (outerLines rem ++ (if innerRunsOut rem then final.toList else [])) = true)
    (h2 : everyLine (fun pre l => !isContextNameLine l ||
      (hasValue l && pendingHasValue isClusterLine pre && pendingHasValue isUserLine pre))
      [] (contextLines rem) = true) :
    ∃ st2, scanClusters rem final st = .ok st2 := by
  induction rem generalizing done st with
  | nil => exact ⟨st, rfl⟩
  | cons l ls ih =>
    cases hm : Contains l "contexts:" with
    | true =>
      simp only [outerLines, innerRunsOut, hm, if_true, List.cons_append, List.nil_append,
        everyLine, Bool.and_eq_true] at h1
      simp only [contextLines, hm, if_true] at h2
      obtain ⟨hl, hf⟩ := h1
      obtain ⟨st1, hs, hep1⟩ := scanServer_safe l done st hep hl
      obtain ⟨a, b, _⟩ := scanServer_frame l st st1 hs
      rw [scanClusters_marker l ls final st st1 hs hm]
      exact scanContexts_safe ls [] final (done ++ [l]) st1
        (by rw [a, hcl]; rfl) (by rw [b, hus]; rfl) hep1 h2 hf
    | false =>
      simp only [outerLines, innerRunsOut, hm, Bool.false_eq_true, if_false, List.cons_append,
        everyLine, Bool.and_eq_true] at h1
      simp only [contextLines, hm, Bool.false_eq_true, if_false] at h2
      obtain ⟨hl, hrest⟩ := h1
      obtain ⟨st1, hs, hep1⟩ := scanServer_safe l done st hep hl
      obtain ⟨a, b, _⟩ := scanServer_frame l st st1 hs
      rw [scanClusters_cons l ls final st st1 hs hm]
      exact ih (done ++ [l]) st1 hep1 (by rw [a, hcl]) (by rw [b, hus]) hrest h2

end kubeconfig

/-- C10 as amended: index safety of the scanner. When (1) every line the outer switch looks at
that contains the name marker and not the endpoint marker has at least two tokens and follows a
line containing the endpoint marker whose most recent occurrence has at least two tokens, and
(2) every line the inner switch looks at that contains the name marker and none of the other
three markers has at least two tokens and follows, in context mode, a line containing the
cluster marker and a line containing the user marker but not the cluster marker, whose most
recent occurrences each have at least two tokens, then no index is out of range and
`ReadKubeconfig` returns normally, with a nil error. The lines the outer switch looks at are
those up to and including the first line containing the contexts marker and, when the inner
loop stopped at a line that did not fit the buffer of the scanner, the buffered head of that
line. -/
theorem index_safety
    (cli : client.ObjectKey → Except Error corev1.Secret) (secret : corev1.Secret)
    (hget : cli kubeconfig.secretKey = .ok secret)
    (hpre : kubeconfig.SafePrecondition (bufio.scanLines (kubeconfig.kubeconfigOf secret))) :
    ∃ r, kubeconfig.ReadKubeconfig cli = .ok r ∧ r.err = none := by
  obtain ⟨st, hs⟩ := kubeconfig.scanClusters_safe
    (bufio.scanLines (kubeconfig.kubeconfigOf secret)).lines []
    (bufio.scanLines (kubeconfig.kubeconfigOf secret)).final {} rfl rfl rfl hpre.1 hpre.2
  refine ⟨{ kubeconfig := kubeconfig.kubeconfigOf secret,
            remoteAPIServers := st.remoteAPIServers,
            remoteTargetClusters := st.remoteTargetClusters, err := none }, ?_, rfl⟩
  simp only [kubeconfig.ReadKubeconfig, hget, kubeconfig.parseLines, hs]

/-- Witness of `index_safety`: a document whose second context entry has no cluster line. -/
theorem index_safety_witness :
    ∃ r, kubeconfig.ReadKubeconfig (fake.env.GetSecret { secret := some ⟨[("config",
      "clusters:\n    server: https://10.0.0.1:6443\n  name: cluster-a\n  name: cluster-b\ncontexts:\n    cluster: cluster-a\n    user: user-a\n  name: ctx-a\n    user: user-b\n  name: ctx-b\ncurrent-context: ctx-a\nusers:\n- name:\n")]⟩ })
        = .ok r ∧ r.err = none :=
  index_safety _ _ rfl (by unfold kubeconfig.SafePrecondition; decide)

/-- C10 as stated fails: the user line names the user `prod-cluster:admin`, so it contains
the cluster marker too. The document satisfies the stated precondition, but the scanner takes
the line for a cluster line, `userName` stays empty and `userName[1]` panics. -/
theorem stated_precondition_does_not_prevent_panic :
    kubeconfig.StatedPrecondition
      (bufio.scanLines "contexts:\n    cluster: cluster-b\n    user: prod-cluster:admin\n  name: ctx-b\ncurrent-context: ctx-b\n") ∧
    kubeconfig.ReadKubeconfig (fun _ => .ok ⟨[("config",
      "contexts:\n    cluster: cluster-b\n    user: prod-cluster:admin\n  name: ctx-b\ncurrent-context: ctx-b\n")]⟩) =
      .error { index := 1, length := 0 } := by
  refine ⟨by unfold kubeconfig.StatedPrecondition; decide, rfl⟩

/-! ## The scanner: emitted fields are values of lines -/

namespace strings

theorem fieldsFrom_ne_empty (cs cur : List Char) : ∀ f ∈ fieldsFrom cs cur, f ≠ "" := by
  induction cs generalizing cur with
  | nil =>
    intro f hf
    unfold fieldsFrom at hf
    cases cur with
    | nil => simp at hf
    | cons c cur =>
      simp only [List.isEmpty_cons, Bool.false_eq_true, if_false, List.mem_singleton] at hf
      subst hf
      intro h
      have := congrArg String.data h
      simp at this
  | cons c cs ih =>
    intro f hf
    unfold fieldsFrom at hf
    split at hf
    · split at hf
      · exact ih [] f hf
      · rcases List.mem_cons.mp hf with rfl | h
        · intro h
          have := congrArg String.data h
          simp_all
        · exact ih [] f h
    · exact ih (c :: cur) f hf

theorem Fields_ne_empty (s : String) : ∀ f ∈ Fields s, f ≠ "" :=
  fieldsFrom_ne_empty s.data []

end strings

namespace kubeconfig

open strings

theorem index_getElem? (xs : List String) (x : String) (h : index xs 1 = .ok x) :
    xs[1]? = some x := by
  unfold index at h
  cases hx : xs[1]? with
  | none => simp [hx] at h
  | some y =>
    simp only [hx, Except.ok.injEq] at h
    subst h
    rfl

theorem IsValueIn.ne_empty (ls : List String) (x : String) (h : IsValueIn ls x) : x ≠ "" := by
  obtain ⟨l, _, hx⟩ := h
  exact Fields_ne_empty l x (List.getElem?_mem hx)

/-- A value read from a pending slice is the value of the line the slice was taken from. -/
theorem IsValueIn.of_pending (ls : List String) (xs : List String) (x : String)
    (hxs : xs = [] ∨ ∃ l ∈ ls, xs = Fields l) (h : index xs 1 = .ok x) : IsValueIn ls x := by
  rcases hxs with rfl | ⟨l, hl, rfl⟩
  · simp [index] at h
  · exact ⟨l, hl, index_getElem? _ _ h⟩

theorem scanServer_fromLines (ls : List String) (l : String) (hl : l ∈ ls)
    (st st1 : ScanState) (h : scanServer l st = .ok st1) (hst : st.FromLines ls) :
    st1.FromLines ls := by
  obtain ⟨a, b, c, d, e⟩ := hst
  cases h1 : Contains l "server:" with
  | true =>
    rw [scanServer_server l st h1] at h
    cases h
    exact ⟨Or.inr ⟨l, hl, rfl⟩, b, c, d, e⟩
  | false =>
    cases h2 : Contains l "name:" with
    | false =>
      rw [scanServer_other l st h1 h2] at h
      cases h
      exact ⟨a, b, c, d, e⟩
    | true =>
      obtain ⟨nm, ep, hn, he⟩ := scanServer_name_ok l st st1 h1 h2 h
      rw [scanServer_name l st h1 h2 nm ep hn he] at h
      cases h
      refine ⟨a, b, c, ?_, e⟩
      intro x hx
      rcases List.mem_append.mp hx with hx | hx
      · exact d x hx
      · simp only [List.mem_singleton] at hx
        subst hx
        exact ⟨⟨l, hl, index_getElem? _ _ hn⟩, IsValueIn.of_pending ls _ _ a he⟩

theorem scanContexts_fromLines (ls seg : List String) (final : Option String)
    (hseg : ∀ l ∈ seg, l ∈ ls) (hfinal : ∀ head, final = some head → head ∈ ls)
    (st st2 : ScanState) (h : scanContexts seg final st = .ok st2) (hst : st.FromLines ls) :
    st2.FromLines ls := by
  induction seg generalizing st with
  | nil =>
    cases final with
    | none =>
      simp only [scanContexts, Except.ok.injEq] at h
      subst h
      exact hst
    | some head =>
      simp only [scanContexts] at h
      exact scanServer_fromLines ls head (hfinal head rfl) st st2 h hst
  | cons l ls2 ih =>
    have hl : l ∈ ls := hseg l (List.mem_cons_self _ _)
    have hrest : ∀ x ∈ ls2, x ∈ ls := fun x hx => hseg x (List.mem_cons_of_mem _ hx)
    obtain ⟨a, b, c, d, e⟩ := hst
    cases h0 : Contains l "current-context:" with
    | true =>
      rw [scanContexts_current l ls2 final st h0] at h
      cases h
      exact ⟨a, b, c, d, e⟩
    | false =>
      cases h1 : Contains l "cluster:" with
      | true =>
        rw [scanContexts_cluster l ls2 final st h0 h1] at h
        exact ih hrest _ h ⟨a, Or.inr ⟨l, hl, rfl⟩, c, d, e⟩
      | false =>
        cases h2 : Contains l "user:" with
        | true =>
          rw [scanContexts_user l ls2 final st h0 h1 h2] at h
          exact ih hrest _ h ⟨a, b, Or.inr ⟨l, hl, rfl⟩, d, e⟩
        | false =>
          cases h3 : Contains l "name:" with
          | true =>
            obtain ⟨ctx, cl, us, hc, hcl, hus⟩ :=
              scanContexts_name_ok l ls2 final st st2 h0 h1 h2 h3 h
            rw [scanContexts_name l ls2 final st h0 h1 h2 h3 ctx cl us hc hcl hus] at h
            refine ih hrest _ h ⟨a, b, c, d, ?_⟩
            intro x hx
            rcases List.mem_append.mp hx with hx | hx
            · exact e x hx
            · simp only [List.mem_singleton] at hx
              subst hx
              exact ⟨⟨l, hl, index_getElem? _ _ hc⟩, IsValueIn.of_pending ls _ _ b hcl,
                IsValueIn.of_pending ls _ _ c hus⟩
          | false =>
            rw [scanContexts_other l ls2 final st h0 h1 h2 h3] at h
            exact ih hrest _ h ⟨a, b, c, d, e⟩

theorem scanClusters_fromLines (ls lines : List String) (final : Option String)
    (hlines : ∀ l ∈ lines, l ∈ ls) (hfinal : ∀ head, final = some head → head ∈ ls)
    (st st2 : ScanState) (h : scanClusters lines final st = .ok st2) (hst : st.FromLines ls) :
    st2.FromLines ls := by
  induction lines generalizing st with
  | nil =>
    simp only [scanClusters, Except.ok.injEq] at h
    subst h
    exact hst
  | cons l ls2 ih =>
    have hl : l ∈ ls := hlines l (List.mem_cons_self _ _)
    have hrest : ∀ x ∈ ls2, x ∈ ls := fun x hx => hlines x (List.mem_cons_of_mem _ hx)
    cases hs : scanServer l st with
    | error p => simp [scanClusters, hs] at h
    | ok st1 =>
      have hst1 := scanServer_fromLines ls l hl st st1 hs hst
      cases hm : Contains l "contexts:" with
      | true =>
        rw [scanClusters_marker l ls2 final st st1 hs hm] at h
        exact scanContexts_fromLines ls ls2 final hrest hfinal st1 st2 h hst1
      | false =>
        rw [scanClusters_cons l ls2 final st st1 hs hm] at h
        exact ih hrest st1 h hst1

end kubeconfig

/-- C2 as amended: `ReadKubeconfig` returns an error exactly when the storage read of the
document fails. When it returns, no emitted record has an empty field: every `Name`,
`Endpoint`, `ContextName`, `ClusterName` and `UserName` is the value of a line of the returned
document as the scanner delivers it, that is the second whitespace-delimited token of the line,
and so not the empty string. -/
theorem read_failure_is_the_only_error
    (cli : client.ObjectKey → Except Error corev1.Secret) (r : kubeconfig.Result)
    (hok : kubeconfig.ReadKubeconfig cli = .ok r) :
    (∀ e, r.err = some e ↔ cli kubeconfig.secretKey = .error e) ∧
    (∀ a ∈ r.remoteAPIServers,
      kubeconfig.IsValueIn (kubeconfig.delivered (bufio.scanLines r.kubeconfig)) a.Name ∧
      kubeconfig.IsValueIn (kubeconfig.delivered (bufio.scanLines r.kubeconfig)) a.Endpoint ∧
      a.Name ≠ "" ∧ a.Endpoint ≠ "") ∧
    (∀ t ∈ r.remoteTargetClusters,
      kubeconfig.IsValueIn (kubeconfig.delivered (bufio.scanLines r.kubeconfig)) t.ContextName ∧
      kubeconfig.IsValueIn (kubeconfig.delivered (bufio.scanLines r.kubeconfig)) t.ClusterName ∧
      kubeconfig.IsValueIn (kubeconfig.delivered (bufio.scanLines r.kubeconfig)) t.UserName ∧
      t.ContextName ≠ "" ∧ t.ClusterName ≠ "" ∧ t.UserName ≠ "") := by
  cases hget : cli kubeconfig.secretKey with
  | error err =>
    simp only [kubeconfig.ReadKubeconfig, hget, Except.ok.injEq] at hok
    subst hok
    simp
  | ok secret =>
    obtain ⟨st, hs, ha, ht, he⟩ := kubeconfig.ReadKubeconfig_scan cli secret r hget hok
    have hk : r.kubeconfig = kubeconfig.kubeconfigOf secret := by
      simp only [kubeconfig.ReadKubeconfig, hget] at hok
      split at hok
      · cases hok
      · cases hok
        rfl
    have hfrom : st.FromLines
        (kubeconfig.delivered (bufio.scanLines (kubeconfig.kubeconfigOf secret))) :=
      kubeconfig.scanClusters_fromLines _ _ _
        (fun l hl => List.mem_append_left _ hl)
        (fun head hh => List.mem_append_right _ (by simp [hh]))
        {} st hs
        ⟨Or.inl rfl, Or.inl rfl, Or.inl rfl, by simp, by simp⟩
    rw [hk]
    refine ⟨by simp [he], ?_, ?_⟩
    · intro a hmem
      rw [ha] at hmem
      obtain ⟨h1, h2⟩ := hfrom.2.2.2.1 a hmem
      exact ⟨h1, h2, h1.ne_empty, h2.ne_empty⟩
    · intro t hmem
      rw [ht] at hmem
      obtain ⟨h1, h2, h3⟩ := hfrom.2.2.2.2 t hmem
      exact ⟨h1, h2, h3, h1.ne_empty, h2.ne_empty, h3.ne_empty⟩

/-- Witness of `read_failure_is_the_only_error`: a document that is read and scanned. -/
theorem read_failure_is_the_only_error_witness :
    (∀ e, (none : Option Error) = some e ↔
      fake.env.GetSecret { secret := some ⟨[("config",
        "    server: https://10.0.0.1:6443\n  name: cluster-a\ncontexts:\n    cluster: cluster-a\n    user: user-a\n  name: ctx-a\ncurrent-context: ctx-a\n")]⟩ }
        kubeconfig.secretKey = .error e) ∧
    (∀ a ∈ [(⟨"cluster-a", "https://10.0.0.1:6443"⟩ : kubeconfig.RemoteAPIServer)],
      kubeconfig.IsValueIn (kubeconfig.delivered (bufio.scanLines
        "    server: https://10.0.0.1:6443\n  name: cluster-a\ncontexts:\n    cluster: cluster-a\n    user: user-a\n  name: ctx-a\ncurrent-context: ctx-a\n"))
        a.Name ∧
      kubeconfig.IsValueIn (kubeconfig.delivered (bufio.scanLines
        "    server: https://10.0.0.1:6443\n  name: cluster-a\ncontexts:\n    cluster: cluster-a\n    user: user-a\n  name: ctx-a\ncurrent-context: ctx-a\n"))
        a.Endpoint ∧
      a.Name ≠ "" ∧ a.Endpoint ≠ "") ∧
    (∀ t ∈ [(⟨"ctx-a", "cluster-a", "user-a"⟩ : kubeconfig.TargetCluster)],
      kubeconfig.IsValueIn (kubeconfig.delivered (bufio.scanLines
        "    server: https://10.0.0.1:6443\n  name: cluster-a\ncontexts:\n    cluster: cluster-a\n    user: user-a\n  name: ctx-a\ncurrent-context: ctx-a\n"))
        t.ContextName ∧
      kubeconfig.IsValueIn (kubeconfig.delivered (bufio.scanLines
        "    server: https://10.0.0.1:6443\n  name: cluster-a\ncontexts:\n    cluster: cluster-a\n    user: user-a\n  name: ctx-a\ncurrent-context: ctx-a\n"))
        t.ClusterName ∧
      kubeconfig.IsValueIn (kubeconfig.delivered (bufio.scanLines
        "    server: https://10.0.0.1:6443\n  name: cluster-a\ncontexts:\n    cluster: cluster-a\n    user: user-a\n  name: ctx-a\ncurrent-context: ctx-a\n"))
        t.UserName ∧
      t.ContextName ≠ "" ∧ t.ClusterName ≠ "" ∧ t.UserName ≠ "") :=
  read_failure_is_the_only_error
    (fake.env.GetSecret { secret := some ⟨[("config",
      "    server: https://10.0.0.1:6443\n  name: cluster-a\ncontexts:\n    cluster: cluster-a\n    user: user-a\n  name: ctx-a\ncurrent-context: ctx-a\n")]⟩ })
    { kubeconfig := "    server: https://10.0.0.1:6443\n  name: cluster-a\ncontexts:\n    cluster: cluster-a\n    user: user-a\n  name: ctx-a\ncurrent-context: ctx-a\n",
      remoteAPIServers := [⟨"cluster-a", "https://10.0.0.1:6443"⟩],
      remoteTargetClusters := [⟨"ctx-a", "cluster-a", "user-a"⟩],
      err := none }
    rfl

/-- C2 as stated fails: each of the three malformed documents of the claim was read
successfully and makes `ReadKubeconfig` panic with an index out of range instead of emitting a
record with an empty field: a name line with no value token, a name line not preceded by any
endpoint line, and a context entry with no cluster line or user line before its name line. -/
theorem malformed_document_panics :
    kubeconfig.ReadKubeconfig (fun _ => .ok ⟨[("config",
      "    server: https://10.0.0.1:6443\n  name:\n")]⟩) = .error { index := 1, length := 1 } ∧
    kubeconfig.ReadKubeconfig (fun _ => .ok ⟨[("config",
      "  name: cluster-a\n")]⟩) = .error { index := 1, length := 0 } ∧
    kubeconfig.ReadKubeconfig (fun _ => .ok ⟨[("config",
      "contexts:\n  name: ctx-a\ncurrent-context: ctx-a\n")]⟩) =
        .error { index := 1, length := 0 } := by
  refine ⟨rfl, rfl, rfl⟩

/-! ## The scanner: a line that does not fit the buffer -/

namespace bufio

theorem rawLines_append_newline (l rest : List Char) (hl : Char.ofNat 10 ∉ l) :
    rawLines (l ++ Char.ofNat 10 :: rest) = l :: rawLines rest := by
  induction l with
  | nil => simp [rawLines]
  | cons c cs ih =>
    have hc : c ≠ Char.ofNat 10 := fun h => hl (h ▸ List.mem_cons_self _ _)
    have hcs : Char.ofNat 10 ∉ cs := fun h => hl (List.mem_cons_of_mem _ h)
    simp only [List.cons_append, rawLines, hc, if_false, List.append_eq, ih hcs]

/-- The scanner delivers the lines in front of the first line of `MaxScanTokenSize` bytes or
more, and nothing of what follows that line. -/
theorem scanFrom_too_long (short : List (List Char)) (long : List Char)
    (rest : List (List Char)) (hshort : ∀ l ∈ short, byteLen l < MaxScanTokenSize)
    (hlong : MaxScanTokenSize ≤ byteLen long) :
    scanFrom (short ++ long :: rest) =
      { lines := short.map (fun l => String.mk (dropCR l)),
        final := some (String.mk (dropCR (takeBytes MaxScanTokenSize long))) } := by
  induction short with
  | nil => simp [scanFrom, Nat.not_lt.mpr hlong]
  | cons l ls ih =>
    have h1 : byteLen l < MaxScanTokenSize := hshort l (List.mem_cons_self _ _)
    have h2 := ih (fun x hx => hshort x (List.mem_cons_of_mem _ hx))
    simp only [List.cons_append, scanFrom, h1, if_true, List.append_eq, h2, List.map_cons]

end bufio

namespace kubeconfig

/-- A document whose first line has `MaxScanTokenSize` bytes or more: the first call of `Scan()`
returns false, the error of the scanner is not looked at, and `ReadKubeconfig` returns no
record and a nil error, whatever entries follow the line. -/
theorem ReadKubeconfig_first_line_too_long (long rest : List Char)
    (hnl : Char.ofNat 10 ∉ long) (hlong : bufio.MaxScanTokenSize ≤ bufio.byteLen long) :
    ReadKubeconfig (fun _ => .ok ⟨[("config", String.mk (long ++ Char.ofNat 10 :: rest))]⟩) =
      .ok { kubeconfig := String.mk (long ++ Char.ofNat 10 :: rest),
            remoteAPIServers := [], remoteTargetClusters := [], err := none } := by
  have h := bufio.scanFrom_too_long [] long (bufio.rawLines rest) (by simp) hlong
  simp only [List.nil_append, List.map_nil] at h
  simp only [ReadKubeconfig, kubeconfigOf, List.lookup, beq_self_eq_true, Option.getD_some,
    bufio.scanLines, bufio.rawLines_append_newline long rest hnl, h, parseLines, scanClusters]

end kubeconfig

/-! ## The pass over the target clusters -/

namespace controllerutil

open replicatev1

/-- `CreateOrUpdate` reports an error only together with `OperationResultNone`. -/
theorem CreateOrUpdate_error {σ : Type} (env : Env σ) (w : σ) (obj : ClusterDetector)
    (f : ClusterDetector → ClusterDetector × Option Error) (e : Error)
    (h : (CreateOrUpdate env w obj f).2.2.2 = some e) :
    (CreateOrUpdate env w obj f).2.2.1 = OperationResult.None := by
  revert h
  unfold CreateOrUpdate
  simp only
  rcases env.Get w (client.ObjectKeyFromObject obj) obj with ⟨w1, obj1, _ | err⟩
  · simp only
    rcases mutate f (client.ObjectKeyFromObject obj) obj1 with ⟨obj2, _ | err2⟩
    · simp only
      by_cases heq : obj1 = obj2
      · simp [heq]
      · simp only [heq, if_false]
        rcases env.Update w1 obj2 with ⟨w2, obj3, _ | err3⟩
        · simp
        · simp
    · simp
  · simp only
    cases apierrors.IsNotFound err
    · simp
    · simp only [Bool.not_true, Bool.false_eq_true, if_false]
      rcases mutate f (client.ObjectKeyFromObject obj) obj1 with ⟨obj2, _ | err2⟩
      · simp only
        rcases env.Create w1 obj2 with ⟨w2, obj3, _ | err3⟩
        · simp
        · simp
      · simp

end controllerutil

namespace main

open replicatev1 kubeconfig

theorem joinAPIServer_miss {σ : Type} (env : Env σ) (t : TargetCluster)
    (apiServer : List RemoteAPIServer) (st : LoopState σ)
    (hmiss : ∀ a ∈ apiServer, a.Name ≠ t.ClusterName) :
    joinAPIServer env t apiServer st = st := by
  induction apiServer with
  | nil => rfl
  | cons a rest ih =>
    have ha : ¬ t.ClusterName = a.Name := fun h => hmiss a (List.mem_cons_self _ _) h.symm
    simp only [joinAPIServer, ha, if_false]
    exact ih (fun x hx => hmiss x (List.mem_cons_of_mem _ hx))

theorem joinAPIServer_first {σ : Type} (env : Env σ) (t : TargetCluster)
    (front : List RemoteAPIServer) (r : RemoteAPIServer) (back : List RemoteAPIServer)
    (st : LoopState σ) (hfront : ∀ a ∈ front, a.Name ≠ t.ClusterName)
    (hr : r.Name = t.ClusterName) :
    joinAPIServer env t (front ++ r :: back) st =
      { world := (healthcheck.HealthChecks env st.world r).1,
        clusterDetector := { st.clusterDetector with
          Status := { ClusterStatus := classify (healthcheck.HealthChecks env st.world r).2 } },
        trace := st.trace ++ [Event.healthChecks t r] } := by
  induction front with
  | nil =>
    simp only [List.nil_append, joinAPIServer, hr, if_true]
    rcases hp : healthcheck.HealthChecks env st.world r with ⟨w1, _ | e⟩ <;> rfl
  | cons a rest ih =>
    have ha : ¬ t.ClusterName = a.Name := fun h => hfront a (List.mem_cons_self _ _) h.symm
    simp only [List.cons_append, joinAPIServer, ha, if_false]
    exact ih (fun x hx => hfront x (List.mem_cons_of_mem _ hx))

theorem find?_split (t : TargetCluster) (apiServer : List RemoteAPIServer) (a : RemoteAPIServer)
    (h : apiServer.find? (fun a => decide (t.ClusterName = a.Name)) = some a) :
    ∃ front back, apiServer = front ++ a :: back ∧ (∀ b ∈ front, b.Name ≠ t.ClusterName) ∧
      a.Name = t.ClusterName := by
  induction apiServer with
  | nil => simp at h
  | cons b rest ih =>
    by_cases hb : t.ClusterName = b.Name
    · simp only [List.find?_cons, hb, decide_True, Option.some.injEq] at h
      subst h
      exact ⟨[], rest, rfl, by simp, hb.symm⟩
    · simp only [List.find?_cons, hb, decide_False] at h
      obtain ⟨front, back, e, hf, ha⟩ := ih h
      refine ⟨b :: front, back, by simp [e], ?_, ha⟩
      intro x hx
      rcases List.mem_cons.mp hx with rfl | hx
      · exact fun h => hb h.symm
      · exact hf x hx

theorem loopBody_abort {σ : Type} (env : Env σ) (apiServer : List RemoteAPIServer)
    (t : TargetCluster) (st : LoopState σ) (e : Error) (h : upsertFails env t st e) :
    loopBody env apiServer t st = (afterUpsert env t st, some e) := by
  have hop := controllerutil.CreateOrUpdate_error env st.world
    (st.clusterDetector.SetName t.ContextName) (mutateFn t) e h
  unfold upsertFails at h
  unfold loopBody afterUpsert
  unfold upsert at h hop ⊢
  rcases hu : controllerutil.CreateOrUpdate env st.world
    (st.clusterDetector.SetName t.ContextName) (mutateFn t) with ⟨w1, obj1, op, err⟩
  rw [hu] at h hop
  simp only at h hop
  subst h hop
  simp

theorem loopBody_continue {σ : Type} (env : Env σ) (apiServer : List RemoteAPIServer)
    (t : TargetCluster) (st : LoopState σ) (h : (upsert env t st).2.2.2 = none) :
    loopBody env apiServer t st = statusUpdate env t (afterJoin env apiServer t st) := by
  unfold loopBody afterJoin afterUpsert
  rcases hu : upsert env t st with ⟨w1, obj1, op, err⟩
  rw [hu] at h
  simp only at h
  subst h
  simp only
  split <;> rfl

theorem initCreateLoop_append {σ : Type} (env : Env σ) (apiServer : List RemoteAPIServer)
    (pre rest : List TargetCluster) (st : LoopState σ)
    (h : (initCreateLoop env apiServer pre st).2 = none) :
    initCreateLoop env apiServer (pre ++ rest) st =
      initCreateLoop env apiServer rest (initCreateLoop env apiServer pre st).1 := by
  induction pre generalizing st with
  | nil => rfl
  | cons t ts ih =>
    simp only [List.cons_append, initCreateLoop] at h ⊢
    rcases hp : loopBody env apiServer t st with ⟨st1, _ | e⟩
    · rw [hp] at h
      simp only at h ⊢
      exact ih st1 h
    · rw [hp] at h
      simp at h

theorem initCreateLoop_stop {σ : Type} (env : Env σ) (apiServer : List RemoteAPIServer)
    (t : TargetCluster) (rest : List TargetCluster) (st : LoopState σ) (e : Error)
    (h : (loopBody env apiServer t st).2 = some e) :
    initCreateLoop env apiServer (t :: rest) st = loopBody env apiServer t st := by
  simp only [initCreateLoop]
  rcases hp : loopBody env apiServer t st with ⟨st1, _ | e2⟩
  · rw [hp] at h
    simp at h
  · rfl

end main

namespace healthcheck

theorem HealthChecks_world {σ : Type} (env : Env σ) (w : σ)
    (target : kubeconfig.RemoteAPIServer) :
    (HealthChecks env w target).1 = (env.HTTPGet w (target.Endpoint ++ "/livez")).1 := by
  simp only [HealthChecks]
  rcases h : env.HTTPGet w (target.Endpoint ++ "/livez") with ⟨w1, e | r⟩ <;> rfl

/-- The prober returns nil for every response that arrives, whatever its status code: only the
transport error is looked at. -/
theorem HealthChecks_response {σ : Type} (env : Env σ) (w w1 : σ)
    (target : kubeconfig.RemoteAPIServer) (resp : http.Response)
    (h : env.HTTPGet w (target.Endpoint ++ "/livez") = (w1, .ok resp)) :
    HealthChecks env w target = (w1, none) := by
  simp only [HealthChecks, h]

end healthcheck

namespace main

open replicatev1 kubeconfig

theorem joinAPIServer_find {σ : Type} (env : Env σ) (t : TargetCluster)
    (apiServer : List RemoteAPIServer) (st : LoopState σ) :
    joinAPIServer env t apiServer st =
      match apiServer.find? (fun a => decide (t.ClusterName = a.Name)) with
      | none => st
      | some r =>
        { world := (healthcheck.HealthChecks env st.world r).1,
          clusterDetector := { st.clusterDetector with
            Status := { ClusterStatus := classify (healthcheck.HealthChecks env st.world r).2 } },
          trace := st.trace ++ [Event.healthChecks t r] } := by
  cases hf : apiServer.find? (fun a => decide (t.ClusterName = a.Name)) with
  | none =>
    refine joinAPIServer_miss env t apiServer st ?_
    intro a ha h
    have := List.find?_eq_none.mp hf a ha
    simp [h] at this
  | some r =>
    obtain ⟨front, back, e, hfront, hr⟩ := find?_split t apiServer r hf
    rw [e]
    exact joinAPIServer_first env t front r back st hfront hr

theorem find?_unique (t : TargetCluster) (apiServer : List RemoteAPIServer) (r : RemoteAPIServer)
    (hdistinct : apiServer.Pairwise (fun a b => a.Name ≠ b.Name))
    (hr : r ∈ apiServer) (hname : r.Name = t.ClusterName) :
    apiServer.find? (fun a => decide (t.ClusterName = a.Name)) = some r := by
  induction apiServer with
  | nil => simp at hr
  | cons b rest ih =>
    rw [List.pairwise_cons] at hdistinct
    rcases List.mem_cons.mp hr with rfl | hmem
    · simp [List.find?_cons, hname]
    · have hb : ¬ t.ClusterName = b.Name := by
        intro h
        exact hdistinct.1 r hmem (h.symm.trans hname.symm)
      simp only [List.find?_cons, hb, decide_False]
      exact ih hdistinct.2 hmem

theorem statusUpdate_trace {σ : Type} (env : Env σ) (t : TargetCluster) (st : LoopState σ) :
    (statusUpdate env t st).1.trace = st.trace ++ [Event.statusUpdate t st.clusterDetector] :=
  rfl

theorem afterJoin_miss {σ : Type} (env : Env σ) (apiServer : List RemoteAPIServer)
    (t : TargetCluster) (st : LoopState σ)
    (hf : apiServer.find? (fun a => decide (t.ClusterName = a.Name)) = none) :
    afterJoin env apiServer t st = afterUpsert env t st := by
  unfold afterJoin
  rw [joinAPIServer_find, hf]

theorem afterJoin_match {σ : Type} (env : Env σ) (apiServer : List RemoteAPIServer)
    (t : TargetCluster) (st : LoopState σ) (a : RemoteAPIServer)
    (hf : apiServer.find? (fun a => decide (t.ClusterName = a.Name)) = some a) :
    afterJoin env apiServer t st =
      { world := (healthcheck.HealthChecks env (afterUpsert env t st).world a).1,
        clusterDetector :=
          { ObjectMeta := (afterUpsert env t st).clusterDetector.ObjectMeta,
            Spec := (afterUpsert env t st).clusterDetector.Spec,
            Status :=
              { ClusterStatus :=
                  classify (healthcheck.HealthChecks env (afterUpsert env t st).world a).2 } },
        trace := st.trace ++ [Event.createOrUpdate t, Event.healthChecks t a] } := by
  unfold afterJoin
  rw [joinAPIServer_find, hf]
  simp [afterUpsert]

/-- The calls one loop iteration adds to the log. -/
theorem loopBody_trace {σ : Type} (env : Env σ) (apiServer : List RemoteAPIServer)
    (t : TargetCluster) (st : LoopState σ) :
    ∃ evs, (loopBody env apiServer t st).1.trace = st.trace ++ evs ∧
      ∀ ev ∈ evs, ev = Event.createOrUpdate t ∨ (∃ obj, ev = Event.statusUpdate t obj) ∨
        ∃ a, ev = Event.healthChecks t a ∧
          apiServer.find? (fun a => decide (t.ClusterName = a.Name)) = some a := by
  cases hu : (upsert env t st).2.2.2 with
  | some e =>
    rw [loopBody_abort env apiServer t st e hu]
    exact ⟨[Event.createOrUpdate t], rfl, by simp⟩
  | none =>
    rw [loopBody_continue env apiServer t st hu, statusUpdate_trace]
    cases hf : apiServer.find? (fun a => decide (t.ClusterName = a.Name)) with
    | none =>
      rw [afterJoin_miss env apiServer t st hf]
      refine ⟨[Event.createOrUpdate t, Event.statusUpdate t (afterUpsert env t st).clusterDetector],
        by simp [afterUpsert], ?_⟩
      intro ev hev
      simp only [List.mem_cons, List.mem_singleton, List.not_mem_nil, or_false] at hev
      rcases hev with rfl | rfl
      · exact Or.inl rfl
      · exact Or.inr (Or.inl ⟨_, rfl⟩)
    | some a =>
      rw [afterJoin_match env apiServer t st a hf]
      refine ⟨[Event.createOrUpdate t, Event.healthChecks t a] ++ [Event.statusUpdate t _],
        by rw [List.append_assoc], ?_⟩
      intro ev hev
      simp only [List.cons_append, List.nil_append, List.mem_cons, List.mem_singleton,
        List.not_mem_nil, or_false] at hev
      rcases hev with rfl | rfl | rfl
      · exact Or.inl rfl
      · exact Or.inr (Or.inr ⟨a, rfl, rfl⟩)
      · exact Or.inr (Or.inl ⟨_, rfl⟩)

/-- The calls a pass adds to the log. -/
theorem initCreateLoop_trace {σ : Type} (env : Env σ) (apiServer : List RemoteAPIServer)
    (targets : List TargetCluster) (st : LoopState σ) :
    ∃ evs, (initCreateLoop env apiServer targets st).1.trace = st.trace ++ evs ∧
      ∀ ev ∈ evs, ∃ t ∈ targets,
        ev = Event.createOrUpdate t ∨ (∃ obj, ev = Event.statusUpdate t obj) ∨
        ∃ a, ev = Event.healthChecks t a ∧
          apiServer.find? (fun a => decide (t.ClusterName = a.Name)) = some a := by
  induction targets generalizing st with
  | nil => exact ⟨[], by simp [initCreateLoop], by simp⟩
  | cons t ts ih =>
    obtain ⟨evs1, h1, h2⟩ := loopBody_trace env apiServer t st
    simp only [initCreateLoop]
    rcases hp : loopBody env apiServer t st with ⟨st1, _ | e⟩
    · rw [hp] at h1
      obtain ⟨evs2, h3, h4⟩ := ih st1
      simp only at h1
      refine ⟨evs1 ++ evs2, by rw [h3, h1, List.append_assoc], ?_⟩
      intro ev hev
      rcases List.mem_append.mp hev with hev | hev
      · exact ⟨t, List.mem_cons_self _ _, h2 ev hev⟩
      · obtain ⟨t2, ht2, h5⟩ := h4 ev hev
        exact ⟨t2, List.mem_cons_of_mem _ ht2, h5⟩
    · rw [hp] at h1
      exact ⟨evs1, h1, fun ev hev => ⟨t, List.mem_cons_self _ _, h2 ev hev⟩⟩

end main

/-! ## Claims about the pass -/

/-- C3: join correctness. When the names of the `RemoteAPIServer` records are pairwise distinct
and the record `r` has `r.Name == t.ClusterName`, the join loop for `t` invokes the prober
exactly once, with `r`: the probed URL is `r.Endpoint` followed by `/livez`. In no pass is the
prober invoked for `t` with another record. -/
theorem join_correctness {σ : Type} (env : Env σ) (apiServer : List kubeconfig.RemoteAPIServer)
    (t : kubeconfig.TargetCluster) (r : kubeconfig.RemoteAPIServer) (st : main.LoopState σ)
    (hdistinct : apiServer.Pairwise (fun a b => a.Name ≠ b.Name))
    (hr : r ∈ apiServer) (hname : r.Name = t.ClusterName) :
    (main.joinAPIServer env t apiServer st).trace = st.trace ++ [main.Event.healthChecks t r] ∧
    (main.joinAPIServer env t apiServer st).world =
      (env.HTTPGet st.world (r.Endpoint ++ "/livez")).1 ∧
    ∀ (targets : List kubeconfig.TargetCluster) (st0 : main.LoopState σ)
      (a : kubeconfig.RemoteAPIServer),
      main.Event.healthChecks t a ∈ (main.initCreateLoop env apiServer targets st0).1.trace →
        main.Event.healthChecks t a ∈ st0.trace ∨ a = r := by
  have hf := main.find?_unique t apiServer r hdistinct hr hname
  refine ⟨?_, ?_, ?_⟩
  · rw [main.joinAPIServer_find, hf]
  · rw [main.joinAPIServer_find, hf]
    exact healthcheck.HealthChecks_world env st.world r
  · intro targets st0 a ha
    obtain ⟨evs, htr, hev⟩ := main.initCreateLoop_trace env apiServer targets st0
    rw [htr] at ha
    rcases List.mem_append.mp ha with h | h
    · exact Or.inl h
    · right
      obtain ⟨t2, _, h1 | ⟨obj, h1⟩ | ⟨a2, h1, h2⟩⟩ := hev _ h
      · cases h1
      · cases h1
      · cases h1
        rw [hf] at h2
        exact (Option.some.inj h2).symm

/-- Witness of `join_correctness`: two servers, the target cluster names the second. -/
theorem join_correctness_witness :
    (main.joinAPIServer fake.env ⟨"ctx-b", "cluster-b", "user-b"⟩
        [⟨"cluster-a", "https://10.0.0.1:6443"⟩, ⟨"cluster-b", "https://10.0.0.2:6443"⟩]
        { world := {}, clusterDetector := {}, trace := [] }).trace =
      [] ++ [main.Event.healthChecks ⟨"ctx-b", "cluster-b", "user-b"⟩
        ⟨"cluster-b", "https://10.0.0.2:6443"⟩] ∧
    (main.joinAPIServer fake.env ⟨"ctx-b", "cluster-b", "user-b"⟩
        [⟨"cluster-a", "https://10.0.0.1:6443"⟩, ⟨"cluster-b", "https://10.0.0.2:6443"⟩]
        { world := {}, clusterDetector := {}, trace := [] }).world =
      (fake.env.HTTPGet {} ("https://10.0.0.2:6443" ++ "/livez")).1 ∧
    ∀ (targets : List kubeconfig.TargetCluster) (st0 : main.LoopState fake.World)
      (a : kubeconfig.RemoteAPIServer),
      main.Event.healthChecks ⟨"ctx-b", "cluster-b", "user-b"⟩ a ∈
        (main.initCreateLoop fake.env
          [⟨"cluster-a", "https://10.0.0.1:6443"⟩, ⟨"cluster-b", "https://10.0.0.2:6443"⟩]
          targets st0).1.trace →
        main.Event.healthChecks ⟨"ctx-b", "cluster-b", "user-b"⟩ a ∈ st0.trace ∨
          a = ⟨"cluster-b", "https://10.0.0.2:6443"⟩ :=
  join_correctness fake.env
    [⟨"cluster-a", "https://10.0.0.1:6443"⟩, ⟨"cluster-b", "https://10.0.0.2:6443"⟩]
    ⟨"ctx-b", "cluster-b", "user-b"⟩ ⟨"cluster-b", "https://10.0.0.2:6443"⟩
    { world := {}, clusterDetector := {}, trace := [] } (by decide) (by decide) rfl

/-- C8 as amended: when several `RemoteAPIServer` records have the same `Name`, the earlier one
shadows the later ones. For a target cluster whose `ClusterName` is that name the join loop
invokes the prober exactly once, with the first record of that name, whatever records follow
it, and in no pass is the prober invoked for that target cluster with another record. -/
theorem first_record_of_a_name_is_probed {σ : Type} (env : Env σ)
    (t : kubeconfig.TargetCluster) (front : List kubeconfig.RemoteAPIServer)
    (r : kubeconfig.RemoteAPIServer) (back : List kubeconfig.RemoteAPIServer)
    (st : main.LoopState σ)
    (hfront : ∀ a ∈ front, a.Name ≠ t.ClusterName) (hname : r.Name = t.ClusterName) :
    (main.joinAPIServer env t (front ++ r :: back) st).trace =
      st.trace ++ [main.Event.healthChecks t r] ∧
    (main.joinAPIServer env t (front ++ r :: back) st).world =
      (env.HTTPGet st.world (r.Endpoint ++ "/livez")).1 ∧
    ∀ (targets : List kubeconfig.TargetCluster) (st0 : main.LoopState σ)
      (a : kubeconfig.RemoteAPIServer),
      main.Event.healthChecks t a ∈
          (main.initCreateLoop env (front ++ r :: back) targets st0).1.trace →
        main.Event.healthChecks t a ∈ st0.trace ∨ a = r := by
  have hj := main.joinAPIServer_first env t front r back st hfront hname
  refine ⟨by rw [hj], ?_, ?_⟩
  · rw [hj]
    exact healthcheck.HealthChecks_world env st.world r
  · intro targets st0 a ha
    obtain ⟨evs, htr, hev⟩ := main.initCreateLoop_trace env (front ++ r :: back) targets st0
    rw [htr] at ha
    rcases List.mem_append.mp ha with h | h
    · exact Or.inl h
    · right
      obtain ⟨t2, _, h1 | ⟨obj, h1⟩ | ⟨a2, h1, h2⟩⟩ := hev _ h
      · cases h1
      · cases h1
      · cases h1
        obtain ⟨f2, b2, e2, hf2, _⟩ := main.find?_split t _ a h2
        have h3 := main.joinAPIServer_first env t f2 a b2 st hf2
          (by
            have := List.find?_some h2
            exact (of_decide_eq_true this).symm)
        rw [← e2, hj] at h3
        have h4 := congrArg main.LoopState.trace h3
        simp only [List.append_cancel_left_eq, List.cons.injEq, and_true] at h4
        cases h4
        rfl

/-- Witness of `first_record_of_a_name_is_probed`: two records named `cluster-a`. -/
theorem first_record_of_a_name_is_probed_witness :
    (main.joinAPIServer fake.env ⟨"ctx-a", "cluster-a", "user-a"⟩
        ([⟨"cluster-z", "https://10.0.0.9:6443"⟩] ++ ⟨"cluster-a", "https://10.0.0.1:6443"⟩ ::
          [⟨"cluster-a", "https://10.0.0.2:6443"⟩])
        { world := {}, clusterDetector := {}, trace := [] }).trace =
      [] ++ [main.Event.healthChecks ⟨"ctx-a", "cluster-a", "user-a"⟩
        ⟨"cluster-a", "https://10.0.0.1:6443"⟩] ∧
    (main.joinAPIServer fake.env ⟨"ctx-a", "cluster-a", "user-a"⟩
        ([⟨"cluster-z", "https://10.0.0.9:6443"⟩] ++ ⟨"cluster-a", "https://10.0.0.1:6443"⟩ ::
          [⟨"cluster-a", "https://10.0.0.2:6443"⟩])
        { world := {}, clusterDetector := {}, trace := [] }).world =
      (fake.env.HTTPGet {} ("https://10.0.0.1:6443" ++ "/livez")).1 ∧
    ∀ (targets : List kubeconfig.TargetCluster) (st0 : main.LoopState fake.World)
      (a : kubeconfig.RemoteAPIServer),
      main.Event.healthChecks ⟨"ctx-a", "cluster-a", "user-a"⟩ a ∈
        (main.initCreateLoop fake.env
          ([⟨"cluster-z", "https://10.0.0.9:6443"⟩] ++ ⟨"cluster-a", "https://10.0.0.1:6443"⟩ ::
            [⟨"cluster-a", "https://10.0.0.2:6443"⟩])
          targets st0).1.trace →
        main.Event.healthChecks ⟨"ctx-a", "cluster-a", "user-a"⟩ a ∈ st0.trace ∨
          a = ⟨"cluster-a", "https://10.0.0.1:6443"⟩ :=
  first_record_of_a_name_is_probed fake.env ⟨"ctx-a", "cluster-a", "user-a"⟩
    [⟨"cluster-z", "https://10.0.0.9:6443"⟩] ⟨"cluster-a", "https://10.0.0.1:6443"⟩
    [⟨"cluster-a", "https://10.0.0.2:6443"⟩]
    { world := {}, clusterDetector := {}, trace := [] } (by decide) rfl

/-- C8 as stated fails: the document has two cluster entries named `cluster-a`, of which only
the later one answers. The prober is invoked once, with the earlier record (endpoint
`https://10.0.0.1:6443`), not with the later one (endpoint `https://10.0.0.2:6443`), and the
status written is `Unknown`. -/
theorem later_duplicate_is_not_probed :
    (kubeconfig.ReadKubeconfig (fun _ => .ok ⟨[("config",
        "clusters:\n    server: https://10.0.0.1:6443\n  name: cluster-a\n    server: https://10.0.0.2:6443\n  name: cluster-a\ncontexts:\n    cluster: cluster-a\n    user: user-a\n  name: ctx-a\ncurrent-context: ctx-a\n")]⟩)).map
      kubeconfig.Result.records =
      .ok ([⟨"cluster-a", "https://10.0.0.1:6443"⟩, ⟨"cluster-a", "https://10.0.0.2:6443"⟩],
        [⟨"ctx-a", "cluster-a", "user-a"⟩]) ∧
    (main.initCreate fake.env
      { secret := some ⟨[("config",
          "clusters:\n    server: https://10.0.0.1:6443\n  name: cluster-a\n    server: https://10.0.0.2:6443\n  name: cluster-a\ncontexts:\n    cluster: cluster-a\n    user: user-a\n  name: ctx-a\ncurrent-context: ctx-a\n")]⟩,
        reachable := ["https://10.0.0.2:6443/livez"] }).map (fun r => r.1.trace) =
      .ok [main.Event.createOrUpdate ⟨"ctx-a", "cluster-a", "user-a"⟩,
        main.Event.healthChecks ⟨"ctx-a", "cluster-a", "user-a"⟩
          ⟨"cluster-a", "https://10.0.0.1:6443"⟩,
        main.Event.statusUpdate ⟨"ctx-a", "cluster-a", "user-a"⟩
          { ObjectMeta := { Name := "ctx-a", Namespace := "resource-replicator-system" },
            Spec := { Context := "ctx-a", Cluster := "cluster-a", User := "user-a" },
            Status := { ClusterStatus := "Unknown" } }] := by
  refine ⟨rfl, rfl⟩

/-! ## The pass and the stored records -/

namespace main

open replicatev1 kubeconfig

theorem StatusKept.trans {x y z : Option String} (h1 : StatusKept x y) (h2 : StatusKept y z) :
    StatusKept x z := by
  rcases h1 with rfl | ⟨rfl, rfl⟩
  · exact h2
  · rcases h2 with h | ⟨h, _⟩
    · exact Or.inr ⟨rfl, h⟩
    · cases h

theorem StatusKept.of_eq {x y : Option String} (h : y = x) : StatusKept x y :=
  Or.inl h

/-- The callback of the upsert changes the spec only, and `mutate` lets it pass when the object
has the key that was read. -/
theorem mutate_mutateFn (t : TargetCluster) (key : client.ObjectKey) (obj : ClusterDetector) :
    controllerutil.mutate (mutateFn t) key obj =
      if key ≠ client.ObjectKeyFromObject obj then
        ((mutateFn t obj).1,
          some (.other "MutateFn cannot mutate object name and/or object namespace"))
      else ((mutateFn t obj).1, none) := by
  rfl

theorem mutateFn_key (t : TargetCluster) (obj : ClusterDetector) :
    client.ObjectKeyFromObject (mutateFn t obj).1 = client.ObjectKeyFromObject obj :=
  rfl

theorem mutateFn_status (t : TargetCluster) (obj : ClusterDetector) :
    (mutateFn t obj).1.Status = obj.Status :=
  rfl

/-- The upsert and the stored statuses: no stored status changes, except that a record that did
not exist may be created with the empty status; when the upsert returns no error, the object
has the key that was asked for and holds the status stored under that key. -/
theorem upsert_store {σ : Type} (env : Env σ)
    (record : σ → client.ObjectKey → Option ClusterDetector) (hlaw : LawfulStore env record)
    (t : TargetCluster) (st : LoopState σ) :
    (∀ k, StatusKept (storedStatus record st.world k)
      (storedStatus record (upsert env t st).1 k)) ∧
    ((upsert env t st).2.2.2 = none →
      client.ObjectKeyFromObject (upsert env t st).2.1 =
        client.ObjectKeyFromObject (st.clusterDetector.SetName t.ContextName) ∧
      storedStatus record (upsert env t st).1
        (client.ObjectKeyFromObject (st.clusterDetector.SetName t.ContextName)) =
        some (upsert env t st).2.1.Status.ClusterStatus) := by
  generalize hkey : client.ObjectKeyFromObject (st.clusterDetector.SetName t.ContextName) = key
  unfold upsert controllerutil.CreateOrUpdate
  simp only [hkey]
  rcases hg : env.Get st.world key (st.clusterDetector.SetName t.ContextName) with
    ⟨w1, obj1, _ | err⟩
  · -- the record exists
    have hG : ∀ k, storedStatus record w1 k = storedStatus record st.world k := by
      intro k
      have := hlaw.get_status st.world key (st.clusterDetector.SetName t.ContextName) k
      rw [hg] at this
      exact this
    have hrec : record st.world key = some obj1 := by
      have := hlaw.get_found st.world key (st.clusterDetector.SetName t.ContextName)
      rw [hg] at this
      exact this rfl
    simp only [mutate_mutateFn]
    by_cases hk : key = client.ObjectKeyFromObject obj1
    · simp only [ne_eq, hk, not_true_eq_false, if_false]
      by_cases heq : obj1 = (mutateFn t obj1).1
      · rw [if_pos heq]
        refine ⟨fun k => StatusKept.of_eq (hG k), fun _ => ⟨rfl, ?_⟩⟩
        show storedStatus record w1 (client.ObjectKeyFromObject obj1) =
          some (mutateFn t obj1).1.Status.ClusterStatus
        rw [← hk, hG key, storedStatus, hrec]
        rfl
      · rw [if_neg heq]
        rcases hu : env.Update w1 (mutateFn t obj1).1 with ⟨w2, obj3, _ | err3⟩
        · have hU : ∀ k, storedStatus record w2 k = storedStatus record w1 k := by
            intro k
            have := hlaw.update_status w1 (mutateFn t obj1).1 k
            rw [hu] at this
            exact this
          have hst : record w2 (client.ObjectKeyFromObject obj1) = some obj3 := by
            have := hlaw.update_ok w1 (mutateFn t obj1).1
            rw [hu] at this
            exact this rfl
          refine ⟨fun k => StatusKept.of_eq ((hU k).trans (hG k)), fun _ => ⟨?_, ?_⟩⟩
          · exact hlaw.key_of_record _ _ _ hst
          · show storedStatus record w2 (client.ObjectKeyFromObject obj1) =
              some obj3.Status.ClusterStatus
            rw [storedStatus, hst]
            rfl
        · have hU : ∀ k, storedStatus record w2 k = storedStatus record w1 k := by
            intro k
            have := hlaw.update_status w1 (mutateFn t obj1).1 k
            rw [hu] at this
            exact this
          exact ⟨fun k => StatusKept.of_eq ((hU k).trans (hG k)), fun h => by cases h⟩
    · simp only [ne_eq, hk, not_false_eq_true, if_true]
      exact ⟨fun k => StatusKept.of_eq (hG k), fun h => by cases h⟩
  · -- the read fails
    have hG : ∀ k, storedStatus record w1 k = storedStatus record st.world k := by
      intro k
      have := hlaw.get_status st.world key (st.clusterDetector.SetName t.ContextName) k
      rw [hg] at this
      exact this
    simp only
    cases hnf : apierrors.IsNotFound err with
    | false =>
      simp only [Bool.not_false, if_true]
      exact ⟨fun k => StatusKept.of_eq (hG k), fun h => by cases h⟩
    | true =>
      simp only [Bool.not_true, Bool.false_eq_true, if_false]
      have hnone : record st.world key = none := by
        have := hlaw.get_notFound st.world key (st.clusterDetector.SetName t.ContextName) err
        rw [hg] at this
        exact this rfl hnf
      simp only [mutate_mutateFn]
      by_cases hk : key = client.ObjectKeyFromObject obj1
      · simp only [ne_eq, hk, not_true_eq_false, if_false]
        rcases hc : env.Create w1 (mutateFn t obj1).1 with ⟨w2, obj3, _ | err3⟩
        · have hX : ∀ k, k ≠ client.ObjectKeyFromObject obj1 →
              storedStatus record w2 k = storedStatus record w1 k := by
            intro k hkk
            have := hlaw.create_other w1 (mutateFn t obj1).1 k hkk
            rw [hc] at this
            exact this
          have hO : record w2 (client.ObjectKeyFromObject obj1) = some obj3 ∧
              obj3.Status.ClusterStatus = "" := by
            have := hlaw.create_ok w1 (mutateFn t obj1).1
            rw [hc] at this
            exact this rfl
          obtain ⟨hst, hempty⟩ := hO
          have hnew : storedStatus record w2 (client.ObjectKeyFromObject obj1) =
              some obj3.Status.ClusterStatus := by
            rw [storedStatus, hst]
            rfl
          refine ⟨fun k => ?_, fun _ => ⟨hlaw.key_of_record _ _ _ hst, hnew⟩⟩
          by_cases hkk : k = client.ObjectKeyFromObject obj1
          · subst hkk
            refine Or.inr ⟨?_, ?_⟩
            · rw [storedStatus, ← hk, hnone]
              rfl
            · show storedStatus record w2 (client.ObjectKeyFromObject obj1) = some ""
              rw [hnew, hempty]
          · exact StatusKept.of_eq ((hX k hkk).trans (hG k))
        · have hE : ∀ k, storedStatus record w2 k = storedStatus record w1 k := by
            intro k
            have := hlaw.create_error w1 (mutateFn t obj1).1 err3 k
            rw [hc] at this
            exact this rfl
          exact ⟨fun k => StatusKept.of_eq ((hE k).trans (hG k)), fun h => by cases h⟩
      · simp only [ne_eq, hk, not_false_eq_true, if_true]
        exact ⟨fun k => StatusKept.of_eq (hG k), fun h => by cases h⟩

end main

namespace main

open replicatev1 kubeconfig

theorem statusUpdate_eq {σ : Type} (env : Env σ) (t : TargetCluster) (st : LoopState σ) :
    statusUpdate env t st =
      ({ world := (env.StatusUpdate st.world st.clusterDetector).1,
         clusterDetector := (env.StatusUpdate st.world st.clusterDetector).2.1,
         trace := st.trace ++ [Event.statusUpdate t st.clusterDetector] },
       (env.StatusUpdate st.world st.clusterDetector).2.2) :=
  rfl

/-- The status update leaves every stored status as it was when the object holds the status
stored under its key. -/
theorem statusUpdate_store {σ : Type} (env : Env σ)
    (record : σ → client.ObjectKey → Option ClusterDetector) (hlaw : LawfulStore env record)
    (t : TargetCluster) (st : LoopState σ) (k : client.ObjectKey)
    (h : k = client.ObjectKeyFromObject st.clusterDetector →
      storedStatus record st.world k = some st.clusterDetector.Status.ClusterStatus) :
    storedStatus record (statusUpdate env t st).1.world k = storedStatus record st.world k := by
  rw [statusUpdate_eq]
  show storedStatus record (env.StatusUpdate st.world st.clusterDetector).1 k = _
  cases he : (env.StatusUpdate st.world st.clusterDetector).2.2 with
  | some e => exact hlaw.statusUpdate_error _ _ e k he
  | none =>
    by_cases hk : k = client.ObjectKeyFromObject st.clusterDetector
    · rw [h hk, hk]
      exact hlaw.statusUpdate_ok _ _ he
    · exact hlaw.statusUpdate_other _ _ k hk

theorem joinAPIServer_store {σ : Type} (env : Env σ)
    (record : σ → client.ObjectKey → Option ClusterDetector) (hlaw : LawfulStore env record)
    (t : TargetCluster) (apiServer : List RemoteAPIServer) (st : LoopState σ)
    (k : client.ObjectKey) :
    storedStatus record (joinAPIServer env t apiServer st).world k =
      storedStatus record st.world k := by
  rw [joinAPIServer_find]
  cases apiServer.find? (fun a => decide (t.ClusterName = a.Name)) with
  | none => rfl
  | some r =>
    show storedStatus record (healthcheck.HealthChecks env st.world r).1 k = _
    rw [healthcheck.HealthChecks_world]
    exact hlaw.httpGet_status _ _ k

theorem joinAPIServer_key {σ : Type} (env : Env σ) (t : TargetCluster)
    (apiServer : List RemoteAPIServer) (st : LoopState σ) :
    client.ObjectKeyFromObject (joinAPIServer env t apiServer st).clusterDetector =
      client.ObjectKeyFromObject st.clusterDetector := by
  rw [joinAPIServer_find]
  cases apiServer.find? (fun a => decide (t.ClusterName = a.Name)) <;> rfl

/-- One iteration keeps the stored status under every key that does not have the name of the
target cluster, and under every key when the target cluster is a join-miss. -/
theorem loopBody_store {σ : Type} (env : Env σ)
    (record : σ → client.ObjectKey → Option ClusterDetector) (hlaw : LawfulStore env record)
    (apiServer : List RemoteAPIServer) (t : TargetCluster) (st : LoopState σ)
    (k : client.ObjectKey)
    (h : k.Name ≠ t.ContextName ∨ ∀ a ∈ apiServer, a.Name ≠ t.ClusterName) :
    StatusKept (storedStatus record st.world k)
      (storedStatus record (loopBody env apiServer t st).1.world k) := by
  obtain ⟨hkept, hok⟩ := upsert_store env record hlaw t st
  cases hu : (upsert env t st).2.2.2 with
  | some e =>
    rw [loopBody_abort env apiServer t st e hu]
    exact hkept k
  | none =>
    obtain ⟨hkey, hstat⟩ := hok hu
    rw [loopBody_continue env apiServer t st hu]
    refine (hkept k).trans (StatusKept.of_eq ?_)
    rw [statusUpdate_store env record hlaw t _ k]
    · exact joinAPIServer_store env record hlaw t apiServer (afterUpsert env t st) k
    · intro hk
      have hk2 : k = client.ObjectKeyFromObject (st.clusterDetector.SetName t.ContextName) := by
        rw [hk]
        unfold afterJoin
        rw [joinAPIServer_key]
        exact hkey
      rcases h with h | h
      · exact absurd (by rw [hk2]; rfl) h
      · unfold afterJoin
        rw [joinAPIServer_miss env t apiServer _ h, hk2]
        exact hstat

/-- A pass keeps the stored status under every key whose name is the context name of join-miss
target clusters only. -/
theorem initCreateLoop_store {σ : Type} (env : Env σ)
    (record : σ → client.ObjectKey → Option ClusterDetector) (hlaw : LawfulStore env record)
    (apiServer : List RemoteAPIServer) (targets : List TargetCluster) (st : LoopState σ)
    (k : client.ObjectKey)
    (h : ∀ t ∈ targets, k.Name ≠ t.ContextName ∨ ∀ a ∈ apiServer, a.Name ≠ t.ClusterName) :
    StatusKept (storedStatus record st.world k)
      (storedStatus record (initCreateLoop env apiServer targets st).1.world k) := by
  induction targets generalizing st with
  | nil => exact Or.inl rfl
  | cons t ts ih =>
    have h1 := loopBody_store env record hlaw apiServer t st k (h t (List.mem_cons_self _ _))
    simp only [initCreateLoop]
    rcases hp : loopBody env apiServer t st with ⟨st1, _ | e⟩
    · rw [hp] at h1
      exact h1.trans (ih st1 (fun x hx => h x (List.mem_cons_of_mem _ hx)))
    · rw [hp] at h1
      exact h1

end main

/-! ## The in-memory API server is lawful -/

namespace fake

open replicatev1

theorem World.find_key (w : World) (k : client.ObjectKey) (r : ClusterDetector)
    (h : w.find k = some r) : client.ObjectKeyFromObject r = k := by
  have := List.find?_some h
  exact of_decide_eq_true this

theorem World.find_replace (w : World) (s : ClusterDetector) (k : client.ObjectKey) :
    (w.replace s).find k =
      (w.find k).map (fun o =>
        if client.ObjectKeyFromObject o = client.ObjectKeyFromObject s then s else o) := by
  unfold World.find World.replace
  simp only
  induction w.objects with
  | nil => rfl
  | cons o os ih =>
    simp only [List.map_cons, List.find?_cons]
    by_cases ho : client.ObjectKeyFromObject o = client.ObjectKeyFromObject s
    · simp only [ho, if_true]
      by_cases hk : client.ObjectKeyFromObject s = k
      · subst hk
        simp [ho]
      · simp only [hk, decide_False]
        exact ih
    · simp only [ho, if_false]
      by_cases hk : client.ObjectKeyFromObject o = k
      · subst hk
        simp [ho]
      · simp only [hk, decide_False]
        exact ih

theorem World.find_append (w : World) (s : ClusterDetector) (k : client.ObjectKey) :
    World.find { w with objects := w.objects ++ [s] } k =
      match w.find k with
      | some o => some o
      | none => if client.ObjectKeyFromObject s = k then some s else none := by
  unfold World.find
  simp only [List.find?_append]
  cases w.objects.find? (fun o => decide (client.ObjectKeyFromObject o = k)) with
  | some o => rfl
  | none =>
    by_cases hk : client.ObjectKeyFromObject s = k <;> simp [List.find?_cons, hk]

/-- The in-memory API server keeps the laws of a store with a status subresource. -/
theorem env_lawful : main.LawfulStore env World.find where
  key_of_record := World.find_key
  get_status := by
    intro w key obj k
    simp only [env]
    cases w.find key <;> rfl
  get_found := by
    intro w key obj h
    simp only [env] at h ⊢
    cases hf : w.find key with
    | none => simp [hf] at h
    | some o => rfl
  get_notFound := by
    intro w key obj e h _
    simp only [env] at h
    cases hf : w.find key with
    | none => rfl
    | some o => simp [hf] at h
  create_error := by
    intro w obj e k h
    simp only [env] at h ⊢
    by_cases hr : obj.ObjectMeta.Name ∈ w.refused
    · simp only [hr, if_true]
    · simp only [hr, if_false] at h ⊢
      cases hf : w.find (client.ObjectKeyFromObject obj) with
      | none => simp [hf] at h
      | some o => rfl
  create_other := by
    intro w obj k hk
    simp only [env]
    by_cases hr : obj.ObjectMeta.Name ∈ w.refused
    · simp only [hr, if_true]
    · simp only [hr, if_false]
      cases hf : w.find (client.ObjectKeyFromObject obj) with
      | some o => rfl
      | none =>
        simp only [main.storedStatus, World.find_append]
        cases w.find k with
        | some o => rfl
        | none =>
          have : ¬ client.ObjectKeyFromObject
              ({ obj with Status := {} } : ClusterDetector) = k := fun h => hk h.symm
          simp only [this, if_false]
  create_ok := by
    intro w obj h
    simp only [env] at h ⊢
    by_cases hr : obj.ObjectMeta.Name ∈ w.refused
    · simp [hr] at h
    · simp only [hr, if_false] at h ⊢
      cases hf : w.find (client.ObjectKeyFromObject obj) with
      | some o => simp [hf] at h
      | none =>
        simp only [World.find_append, hf]
        simp [client.ObjectKeyFromObject]
  update_status := by
    intro w obj k
    simp only [env]
    by_cases hr : obj.ObjectMeta.Name ∈ w.refused
    · simp only [hr, if_true]
    · simp only [hr, if_false]
      cases hf : w.find (client.ObjectKeyFromObject obj) with
      | none => rfl
      | some o =>
        simp only [main.storedStatus, World.find_replace]
        cases hk : w.find k with
        | none => rfl
        | some o2 =>
          simp only [Option.map_some', Option.some.injEq]
          by_cases hkk : client.ObjectKeyFromObject o2 =
              client.ObjectKeyFromObject ({ o with Spec := obj.Spec } : ClusterDetector)
          · simp only [hkk, if_true]
            have h1 := World.find_key w _ _ hf
            have h2 := World.find_key w _ _ hk
            have h3 : k = client.ObjectKeyFromObject obj := by
              rw [← h2, hkk, ← h1]
              rfl
            rw [h3, hf] at hk
            cases hk
            rfl
          · simp only [hkk, if_false]
  update_ok := by
    intro w obj h
    simp only [env] at h ⊢
    by_cases hr : obj.ObjectMeta.Name ∈ w.refused
    · simp [hr] at h
    · simp only [hr, if_false] at h ⊢
      cases hf : w.find (client.ObjectKeyFromObject obj) with
      | none => simp [hf] at h
      | some o =>
        simp only [World.find_replace, hf, Option.map_some', Option.some.injEq]
        have h1 := World.find_key w _ _ hf
        simp [client.ObjectKeyFromObject]
  statusUpdate_error := by
    intro w obj e k h
    simp only [env] at h ⊢
    by_cases hr : obj.ObjectMeta.Name ∈ w.refused
    · simp only [hr, if_true]
    · simp only [hr, if_false] at h ⊢
      cases hf : w.find (client.ObjectKeyFromObject obj) with
      | none => rfl
      | some o => simp [hf] at h
  statusUpdate_other := by
    intro w obj k hk
    simp only [env]
    by_cases hr : obj.ObjectMeta.Name ∈ w.refused
    · simp only [hr, if_true]
    · simp only [hr, if_false]
      cases hf : w.find (client.ObjectKeyFromObject obj) with
      | none => rfl
      | some o =>
        simp only [main.storedStatus, World.find_replace]
        cases hk2 : w.find k with
        | none => rfl
        | some o2 =>
          have h1 := World.find_key w _ _ hf
          have h2 := World.find_key w _ _ hk2
          have : ¬ client.ObjectKeyFromObject o2 =
              client.ObjectKeyFromObject ({ o with Status := obj.Status } : ClusterDetector) := by
            intro h
            apply hk
            rw [← h2, h, ← h1]
            rfl
          simp only [Option.map_some', this, if_false]
  statusUpdate_ok := by
    intro w obj h
    simp only [env] at h ⊢
    by_cases hr : obj.ObjectMeta.Name ∈ w.refused
    · simp [hr] at h
    · simp only [hr, if_false] at h ⊢
      cases hf : w.find (client.ObjectKeyFromObject obj) with
      | none => simp [hf] at h
      | some o =>
        simp only [main.storedStatus, World.find_replace, hf, Option.map_some',
          Option.some.injEq]
        simp [client.ObjectKeyFromObject]
  httpGet_status := by
    intro w url k
    simp only [env]
    by_cases hu : url ∈ w.reachable <;> simp only [hu, if_true, if_false]

end fake

/-! ## Claims about the pass and the stored records -/

/-- C4: health classification. For a target cluster `t` that has a matching `RemoteAPIServer`
(`a` is the one the join finds) and whose upsert returned no error, the iteration is the upsert,
the probe of `a`, and the call `Status().Update` of the client, made in the world the probe
left, with the object the upsert left in which `ClusterStatus` is set to `Running` exactly when
`HealthChecks` returns nil for `a` and to `Unknown` exactly when it returns an error; the
iteration ends in the world, with the object and with the error that call returns. When the API
server is a lawful store and the call returns no error, the status then stored under the
context name of `t` is that `ClusterStatus`. The join assigns no other value to `ClusterStatus`,
for any target cluster. -/
theorem health_classification {σ : Type} (env : Env σ)
    (apiServer : List kubeconfig.RemoteAPIServer) (t : kubeconfig.TargetCluster)
    (a : kubeconfig.RemoteAPIServer) (st : main.LoopState σ)
    (hfind : apiServer.find? (fun a => decide (t.ClusterName = a.Name)) = some a)
    (hup : (main.upsert env t st).2.2.2 = none) :
    (∃ obj,
      main.loopBody env apiServer t st =
        ({ world :=
             (env.StatusUpdate (healthcheck.HealthChecks env (main.upsert env t st).1 a).1 obj).1,
           clusterDetector :=
             (env.StatusUpdate (healthcheck.HealthChecks env (main.upsert env t st).1 a).1 obj).2.1,
           trace := st.trace ++ [main.Event.createOrUpdate t, main.Event.healthChecks t a,
             main.Event.statusUpdate t obj] },
         (env.StatusUpdate (healthcheck.HealthChecks env (main.upsert env t st).1 a).1 obj).2.2) ∧
      obj.ObjectMeta = (main.upsert env t st).2.1.ObjectMeta ∧
      obj.Spec = (main.upsert env t st).2.1.Spec ∧
      (obj.Status.ClusterStatus = "Running" ↔
        (healthcheck.HealthChecks env (main.upsert env t st).1 a).2 = none) ∧
      (obj.Status.ClusterStatus = "Unknown" ↔
        ∃ e, (healthcheck.HealthChecks env (main.upsert env t st).1 a).2 = some e) ∧
      ∀ record, main.LawfulStore env record →
        (env.StatusUpdate (healthcheck.HealthChecks env (main.upsert env t st).1 a).1 obj).2.2 =
          none →
        main.storedStatus record (main.loopBody env apiServer t st).1.world
            { Namespace := st.clusterDetector.ObjectMeta.Namespace, Name := t.ContextName } =
          some obj.Status.ClusterStatus) ∧
    ∀ (t2 : kubeconfig.TargetCluster) (st2 : main.LoopState σ),
      (main.joinAPIServer env t2 apiServer st2).clusterDetector = st2.clusterDetector ∨
      (main.joinAPIServer env t2 apiServer st2).clusterDetector =
        { st2.clusterDetector with Status := { ClusterStatus := "Running" } } ∨
      (main.joinAPIServer env t2 apiServer st2).clusterDetector =
        { st2.clusterDetector with Status := { ClusterStatus := "Unknown" } } := by
  constructor
  · have hj := main.afterJoin_match env apiServer t st a hfind
    have hbody : main.loopBody env apiServer t st =
        ({ world :=
             (env.StatusUpdate (healthcheck.HealthChecks env (main.upsert env t st).1 a).1
               (main.afterJoin env apiServer t st).clusterDetector).1,
           clusterDetector :=
             (env.StatusUpdate (healthcheck.HealthChecks env (main.upsert env t st).1 a).1
               (main.afterJoin env apiServer t st).clusterDetector).2.1,
           trace := st.trace ++ [main.Event.createOrUpdate t, main.Event.healthChecks t a,
             main.Event.statusUpdate t (main.afterJoin env apiServer t st).clusterDetector] },
         (env.StatusUpdate (healthcheck.HealthChecks env (main.upsert env t st).1 a).1
           (main.afterJoin env apiServer t st).clusterDetector).2.2) := by
      rw [main.loopBody_continue env apiServer t st hup, main.statusUpdate_eq]
      have hw : (main.afterJoin env apiServer t st).world =
          (healthcheck.HealthChecks env (main.upsert env t st).1 a).1 := by
        rw [hj]
        rfl
      have htr : (main.afterJoin env apiServer t st).trace =
          st.trace ++ [main.Event.createOrUpdate t, main.Event.healthChecks t a] := by
        rw [hj]
      rw [hw, htr]
      simp
    refine ⟨(main.afterJoin env apiServer t st).clusterDetector, hbody, ?_, ?_, ?_, ?_, ?_⟩
    · rw [hj]; rfl
    · rw [hj]; rfl
    · rw [hj]
      simp only [main.afterUpsert]
      cases (healthcheck.HealthChecks env (main.upsert env t st).1 a).2 <;>
        simp [main.classify]
    · rw [hj]
      simp only [main.afterUpsert]
      cases (healthcheck.HealthChecks env (main.upsert env t st).1 a).2 <;>
        simp [main.classify]
    · intro record hlaw hok
      rw [hbody]
      have hkey : client.ObjectKeyFromObject (main.afterJoin env apiServer t st).clusterDetector =
          { Namespace := st.clusterDetector.ObjectMeta.Namespace, Name := t.ContextName } := by
        unfold main.afterJoin
        rw [main.joinAPIServer_key]
        exact ((main.upsert_store env record hlaw t st).2 hup).1
      rw [← hkey]
      exact hlaw.statusUpdate_ok _ _ hok
  · intro t2 st2
    rw [main.joinAPIServer_find]
    cases apiServer.find? (fun a => decide (t2.ClusterName = a.Name)) with
    | none => exact Or.inl rfl
    | some r =>
      cases hp : (healthcheck.HealthChecks env st2.world r).2 with
      | none => exact Or.inr (Or.inl (by simp [hp, main.classify]))
      | some e => exact Or.inr (Or.inr (by simp [hp, main.classify]))

/-- Witness of `health_classification`: the first endpoint answers, the target cluster names
it, no record is stored yet. The iteration creates the record `ctx-a` and ends with the status
`Running` stored in it. -/
theorem health_classification_witness :
    ((∃ obj,
      main.loopBody fake.env
          [⟨"cluster-a", "https://10.0.0.1:6443"⟩, ⟨"cluster-b", "https://10.0.0.2:6443"⟩]
          ⟨"ctx-a", "cluster-a", "user-a"⟩
          { world := { reachable := ["https://10.0.0.1:6443/livez"] },
            clusterDetector := { ObjectMeta := { Namespace := "resource-replicator-system" } },
            trace := [] } =
        ({ world :=
             (fake.env.StatusUpdate
               { objects :=
                   [{ ObjectMeta := { Name := "ctx-a", Namespace := "resource-replicator-system" },
                      Spec := { Context := "ctx-a", Cluster := "cluster-a", User := "user-a" } }],
                 reachable := ["https://10.0.0.1:6443/livez"] } obj).1,
           clusterDetector :=
             (fake.env.StatusUpdate
               { objects :=
                   [{ ObjectMeta := { Name := "ctx-a", Namespace := "resource-replicator-system" },
                      Spec := { Context := "ctx-a", Cluster := "cluster-a", User := "user-a" } }],
                 reachable := ["https://10.0.0.1:6443/livez"] } obj).2.1,
           trace := [] ++ [main.Event.createOrUpdate ⟨"ctx-a", "cluster-a", "user-a"⟩,
             main.Event.healthChecks ⟨"ctx-a", "cluster-a", "user-a"⟩
               ⟨"cluster-a", "https://10.0.0.1:6443"⟩,
             main.Event.statusUpdate ⟨"ctx-a", "cluster-a", "user-a"⟩ obj] },
         (fake.env.StatusUpdate
           { objects :=
               [{ ObjectMeta := { Name := "ctx-a", Namespace := "resource-replicator-system" },
                  Spec := { Context := "ctx-a", Cluster := "cluster-a", User := "user-a" } }],
             reachable := ["https://10.0.0.1:6443/livez"] } obj).2.2) ∧
      obj.ObjectMeta = { Name := "ctx-a", Namespace := "resource-replicator-system" } ∧
      obj.Spec = { Context := "ctx-a", Cluster := "cluster-a", User := "user-a" } ∧
      (obj.Status.ClusterStatus = "Running" ↔ (none : Option Error) = none) ∧
      (obj.Status.ClusterStatus = "Unknown" ↔ ∃ e, (none : Option Error) = some e) ∧
      ∀ record, main.LawfulStore fake.env record →
        (fake.env.StatusUpdate
           { objects :=
               [{ ObjectMeta := { Name := "ctx-a", Namespace := "resource-replicator-system" },
                  Spec := { Context := "ctx-a", Cluster := "cluster-a", User := "user-a" } }],
             reachable := ["https://10.0.0.1:6443/livez"] } obj).2.2 = none →
        main.storedStatus record
            (main.loopBody fake.env
              [⟨"cluster-a", "https://10.0.0.1:6443"⟩, ⟨"cluster-b", "https://10.0.0.2:6443"⟩]
              ⟨"ctx-a", "cluster-a", "user-a"⟩
              { world := { reachable := ["https://10.0.0.1:6443/livez"] },
                clusterDetector := { ObjectMeta := { Namespace := "resource-replicator-system" } },
                trace := [] }).1.world
            { Namespace := "resource-replicator-system", Name := "ctx-a" } =
          some obj.Status.ClusterStatus) ∧
    ∀ (t2 : kubeconfig.TargetCluster) (st2 : main.LoopState fake.World),
      (main.joinAPIServer fake.env t2
        [⟨"cluster-a", "https://10.0.0.1:6443"⟩, ⟨"cluster-b", "https://10.0.0.2:6443"⟩]
        st2).clusterDetector = st2.clusterDetector ∨
      (main.joinAPIServer fake.env t2
        [⟨"cluster-a", "https://10.0.0.1:6443"⟩, ⟨"cluster-b", "https://10.0.0.2:6443"⟩]
        st2).clusterDetector =
        { st2.clusterDetector with Status := { ClusterStatus := "Running" } } ∨
      (main.joinAPIServer fake.env t2
        [⟨"cluster-a", "https://10.0.0.1:6443"⟩, ⟨"cluster-b", "https://10.0.0.2:6443"⟩]
        st2).clusterDetector =
        { st2.clusterDetector with Status := { ClusterStatus := "Unknown" } }) ∧
    main.loopBody fake.env
        [⟨"cluster-a", "https://10.0.0.1:6443"⟩, ⟨"cluster-b", "https://10.0.0.2:6443"⟩]
        ⟨"ctx-a", "cluster-a", "user-a"⟩
        { world := { reachable := ["https://10.0.0.1:6443/livez"] },
          clusterDetector := { ObjectMeta := { Namespace := "resource-replicator-system" } },
          trace := [] } =
      ({ world :=
           { objects :=
               [{ ObjectMeta := { Name := "ctx-a", Namespace := "resource-replicator-system" },
                  Spec := { Context := "ctx-a", Cluster := "cluster-a", User := "user-a" },
                  Status := { ClusterStatus := "Running" } }],
             reachable := ["https://10.0.0.1:6443/livez"] },
         clusterDetector :=
           { ObjectMeta := { Name := "ctx-a", Namespace := "resource-replicator-system" },
             Spec := { Context := "ctx-a", Cluster := "cluster-a", User := "user-a" },
             Status := { ClusterStatus := "Running" } },
         trace := [main.Event.createOrUpdate ⟨"ctx-a", "cluster-a", "user-a"⟩,
           main.Event.healthChecks ⟨"ctx-a", "cluster-a", "user-a"⟩
             ⟨"cluster-a", "https://10.0.0.1:6443"⟩,
           main.Event.statusUpdate ⟨"ctx-a", "cluster-a", "user-a"⟩
             { ObjectMeta := { Name := "ctx-a", Namespace := "resource-replicator-system" },
               Spec := { Context := "ctx-a", Cluster := "cluster-a", User := "user-a" },
               Status := { ClusterStatus := "Running" } }] },
       none) :=
  ⟨health_classification fake.env
    [⟨"cluster-a", "https://10.0.0.1:6443"⟩, ⟨"cluster-b", "https://10.0.0.2:6443"⟩]
    ⟨"ctx-a", "cluster-a", "user-a"⟩ ⟨"cluster-a", "https://10.0.0.1:6443"⟩
    { world := { reachable := ["https://10.0.0.1:6443/livez"] },
      clusterDetector := { ObjectMeta := { Namespace := "resource-replicator-system" } },
      trace := [] }
    rfl rfl, rfl⟩

/-- C5 as amended: a join-miss leaves the stored status unchanged when no other target cluster
of the pass has the same context name. Let the API server be a lawful store, let no
`RemoteAPIServer` have `Name == t.ClusterName`, and let every target cluster of the pass that
has the `ContextName` of `t` be `t`. Then the `ClusterStatus` of the record keyed by
`t.ContextName` after the pass is the one it had before the pass, whatever the shared
`ClusterDetector` object holds when the pass starts and whatever status is computed for the
other target clusters, and whether the pass ends or is aborted by a write failure. A record
that did not exist before the pass does not exist after it, or was created with the empty
status. -/
theorem join_miss_keeps_stored_status {σ : Type} (env : Env σ)
    (record : σ → client.ObjectKey → Option replicatev1.ClusterDetector)
    (hlaw : main.LawfulStore env record)
    (apiServer : List kubeconfig.RemoteAPIServer) (targets : List kubeconfig.TargetCluster)
    (t : kubeconfig.TargetCluster) (st : main.LoopState σ) (key : client.ObjectKey)
    (hmiss : ∀ a ∈ apiServer, a.Name ≠ t.ClusterName)
    (hothers : ∀ t2 ∈ targets, t2.ContextName = t.ContextName → t2 = t)
    (hkey : key.Name = t.ContextName) :
    main.storedStatus record (main.initCreateLoop env apiServer targets st).1.world key =
        main.storedStatus record st.world key ∨
      (main.storedStatus record st.world key = none ∧
        main.storedStatus record (main.initCreateLoop env apiServer targets st).1.world key =
          some "") := by
  refine main.initCreateLoop_store env record hlaw apiServer targets st key ?_
  intro t2 ht2
  by_cases hn : t2.ContextName = t.ContextName
  · rw [hothers t2 ht2 hn]
    exact Or.inr hmiss
  · exact Or.inl (fun h => hn (h.symm.trans hkey))

/-- Witness of `join_miss_keeps_stored_status`: the pass over `ctx-a`, whose cluster answers,
and `ctx-b`, whose cluster name matches no server. The record `ctx-b` is stored with status
`Unknown`. The pass stores `Running` for `ctx-a`, the shared object then holds `Running`, and
the record `ctx-b` has status `Unknown` after the pass. -/
theorem join_miss_keeps_stored_status_witness :
    (main.storedStatus fake.World.find
        (main.initCreateLoop fake.env [⟨"cluster-a", "https://10.0.0.1:6443"⟩]
          [⟨"ctx-a", "cluster-a", "user-a"⟩, ⟨"ctx-b", "cluster-b", "user-b"⟩]
          (main.initialState
            { objects :=
                [{ ObjectMeta := { Name := "ctx-b", Namespace := "resource-replicator-system" },
                   Spec := { Context := "ctx-b", Cluster := "cluster-b", User := "user-b" },
                   Status := { ClusterStatus := "Unknown" } }],
              reachable := ["https://10.0.0.1:6443/livez"] })).1.world
        { Namespace := "resource-replicator-system", Name := "ctx-b" } =
      main.storedStatus fake.World.find
        (main.initialState
          { objects :=
              [{ ObjectMeta := { Name := "ctx-b", Namespace := "resource-replicator-system" },
                 Spec := { Context := "ctx-b", Cluster := "cluster-b", User := "user-b" },
                 Status := { ClusterStatus := "Unknown" } }],
            reachable := ["https://10.0.0.1:6443/livez"] }).world
        { Namespace := "resource-replicator-system", Name := "ctx-b" } ∨
      (main.storedStatus fake.World.find
          (main.initialState
            { objects :=
                [{ ObjectMeta := { Name := "ctx-b", Namespace := "resource-replicator-system" },
                   Spec := { Context := "ctx-b", Cluster := "cluster-b", User := "user-b" },
                   Status := { ClusterStatus := "Unknown" } }],
              reachable := ["https://10.0.0.1:6443/livez"] }).world
          { Namespace := "resource-replicator-system", Name := "ctx-b" } = none ∧
        main.storedStatus fake.World.find
          (main.initCreateLoop fake.env [⟨"cluster-a", "https://10.0.0.1:6443"⟩]
            [⟨"ctx-a", "cluster-a", "user-a"⟩, ⟨"ctx-b", "cluster-b", "user-b"⟩]
            (main.initialState
              { objects :=
                  [{ ObjectMeta := { Name := "ctx-b", Namespace := "resource-replicator-system" },
                     Spec := { Context := "ctx-b", Cluster := "cluster-b", User := "user-b" },
                     Status := { ClusterStatus := "Unknown" } }],
                reachable := ["https://10.0.0.1:6443/livez"] })).1.world
          { Namespace := "resource-replicator-system", Name := "ctx-b" } = some "")) ∧
    fake.World.statusOf
      { objects :=
          [{ ObjectMeta := { Name := "ctx-b", Namespace := "resource-replicator-system" },
             Spec := { Context := "ctx-b", Cluster := "cluster-b", User := "user-b" },
             Status := { ClusterStatus := "Unknown" } }],
        reachable := ["https://10.0.0.1:6443/livez"] } "ctx-b" = some "Unknown" ∧
    ((main.loopBody fake.env [⟨"cluster-a", "https://10.0.0.1:6443"⟩]
        ⟨"ctx-a", "cluster-a", "user-a"⟩
        (main.initialState
          { objects :=
              [{ ObjectMeta := { Name := "ctx-b", Namespace := "resource-replicator-system" },
                 Spec := { Context := "ctx-b", Cluster := "cluster-b", User := "user-b" },
                 Status := { ClusterStatus := "Unknown" } }],
            reachable := ["https://10.0.0.1:6443/livez"] })).1.world.statusOf "ctx-a",
      (main.loopBody fake.env [⟨"cluster-a", "https://10.0.0.1:6443"⟩]
        ⟨"ctx-a", "cluster-a", "user-a"⟩
        (main.initialState
          { objects :=
              [{ ObjectMeta := { Name := "ctx-b", Namespace := "resource-replicator-system" },
                 Spec := { Context := "ctx-b", Cluster := "cluster-b", User := "user-b" },
                 Status := { ClusterStatus := "Unknown" } }],
            reachable := ["https://10.0.0.1:6443/livez"] })).1.clusterDetector.Status.ClusterStatus) =
      (some "Running", "Running") ∧
    ((main.initCreateLoop fake.env [⟨"cluster-a", "https://10.0.0.1:6443"⟩]
        [⟨"ctx-a", "cluster-a", "user-a"⟩, ⟨"ctx-b", "cluster-b", "user-b"⟩]
        (main.initialState
          { objects :=
              [{ ObjectMeta := { Name := "ctx-b", Namespace := "resource-replicator-system" },
                 Spec := { Context := "ctx-b", Cluster := "cluster-b", User := "user-b" },
                 Status := { ClusterStatus := "Unknown" } }],
            reachable := ["https://10.0.0.1:6443/livez"] })).1.world.statusOf "ctx-b",
      (main.initCreateLoop fake.env [⟨"cluster-a", "https://10.0.0.1:6443"⟩]
        [⟨"ctx-a", "cluster-a", "user-a"⟩, ⟨"ctx-b", "cluster-b", "user-b"⟩]
        (main.initialState
          { objects :=
              [{ ObjectMeta := { Name := "ctx-b", Namespace := "resource-replicator-system" },
                 Spec := { Context := "ctx-b", Cluster := "cluster-b", User := "user-b" },
                 Status := { ClusterStatus := "Unknown" } }],
            reachable := ["https://10.0.0.1:6443/livez"] })).2) = (some "Unknown", none) :=
  ⟨join_miss_keeps_stored_status fake.env fake.World.find fake.env_lawful
    [⟨"cluster-a", "https://10.0.0.1:6443"⟩]
    [⟨"ctx-a", "cluster-a", "user-a"⟩, ⟨"ctx-b", "cluster-b", "user-b"⟩]
    ⟨"ctx-b", "cluster-b", "user-b"⟩ _
    { Namespace := "resource-replicator-system", Name := "ctx-b" }
    (by decide) (by decide) rfl, rfl, rfl, rfl⟩

/-- C5 as stated fails: the document has two context entries named `ctx-a`, the first naming
the known `cluster-a`, the second naming `cluster-b`, which matches no server. The record
`ctx-a` has status `Unknown` before the pass; the pass ends without error and the record has
status `Running`, the status computed for the target cluster processed just before. -/
theorem join_miss_status_changes :
    (kubeconfig.ReadKubeconfig (fun _ => .ok ⟨[("config",
        "clusters:\n    server: https://10.0.0.1:6443\n  name: cluster-a\ncontexts:\n    cluster: cluster-a\n    user: user-a\n  name: ctx-a\n    cluster: cluster-b\n    user: user-a\n  name: ctx-a\ncurrent-context: ctx-a\n")]⟩)).map
      kubeconfig.Result.records =
      .ok ([⟨"cluster-a", "https://10.0.0.1:6443"⟩],
        [⟨"ctx-a", "cluster-a", "user-a"⟩, ⟨"ctx-a", "cluster-b", "user-a"⟩]) ∧
    (∀ a ∈ [(⟨"cluster-a", "https://10.0.0.1:6443"⟩ : kubeconfig.RemoteAPIServer)],
      a.Name ≠ (⟨"ctx-a", "cluster-b", "user-a"⟩ : kubeconfig.TargetCluster).ClusterName) ∧
    fake.World.statusOf
      { secret := some ⟨[("config",
          "clusters:\n    server: https://10.0.0.1:6443\n  name: cluster-a\ncontexts:\n    cluster: cluster-a\n    user: user-a\n  name: ctx-a\n    cluster: cluster-b\n    user: user-a\n  name: ctx-a\ncurrent-context: ctx-a\n")]⟩,
        objects := [{ ObjectMeta := { Name := "ctx-a", Namespace := "resource-replicator-system" },
                      Spec := { Context := "ctx-a", Cluster := "cluster-a", User := "user-a" },
                      Status := { ClusterStatus := "Unknown" } }],
        reachable := ["https://10.0.0.1:6443/livez"] } "ctx-a" = some "Unknown" ∧
    (main.initCreate fake.env
      { secret := some ⟨[("config",
          "clusters:\n    server: https://10.0.0.1:6443\n  name: cluster-a\ncontexts:\n    cluster: cluster-a\n    user: user-a\n  name: ctx-a\n    cluster: cluster-b\n    user: user-a\n  name: ctx-a\ncurrent-context: ctx-a\n")]⟩,
        objects := [{ ObjectMeta := { Name := "ctx-a", Namespace := "resource-replicator-system" },
                      Spec := { Context := "ctx-a", Cluster := "cluster-a", User := "user-a" },
                      Status := { ClusterStatus := "Unknown" } }],
        reachable := ["https://10.0.0.1:6443/livez"] }).map
      (fun r => (r.1.world.statusOf "ctx-a", r.2)) = .ok (some "Running", none) := by
  refine ⟨rfl, by decide, rfl, rfl⟩

namespace main

open replicatev1 kubeconfig

/-- The loop returns from inside the iteration whose upsert or status update fails. -/
theorem initCreateLoop_abort {σ : Type} (env : Env σ) (apiServer : List RemoteAPIServer)
    (pre : List TargetCluster) (t : TargetCluster) (st : LoopState σ) (e : Error)
    (hpre : (initCreateLoop env apiServer pre st).2 = none)
    (hfail : upsertFails env t (initCreateLoop env apiServer pre st).1 e ∨
      statusUpdateFails env apiServer t (initCreateLoop env apiServer pre st).1 e) :
    (loopBody env apiServer t (initCreateLoop env apiServer pre st).1).2 = some e ∧
    ∀ rest, initCreateLoop env apiServer (pre ++ t :: rest) st =
      loopBody env apiServer t (initCreateLoop env apiServer pre st).1 := by
  have herr : (loopBody env apiServer t (initCreateLoop env apiServer pre st).1).2 = some e := by
    rcases hfail with h | ⟨h1, h2⟩
    · rw [loopBody_abort env apiServer t _ e h]
    · rw [loopBody_continue env apiServer t _ h1]
      exact h2
  refine ⟨herr, ?_⟩
  intro rest
  rw [initCreateLoop_append env apiServer pre (t :: rest) st hpre,
    initCreateLoop_stop env apiServer t rest _ e herr]

end main

/-- C7: a write failure aborts the rest of the pass. When the document gives the target
clusters `pre ++ t :: post`, the pass has processed `pre` without error, and the upsert or the
status update of `t` returns the error `e`, then `initCreate` returns `e` from inside the
iteration for `t`: it ends in the state that iteration leaves, every call after those for `pre`
is a call for `t` (the upsert alone when the upsert failed), and the pass over
`pre ++ t :: post` is the pass over `pre ++ [t]`, so nothing is done for `post`. -/
theorem write_failure_aborts_pass {σ : Type} (env : Env σ) (w : σ) (r : kubeconfig.Result)
    (pre : List kubeconfig.TargetCluster) (t : kubeconfig.TargetCluster)
    (post : List kubeconfig.TargetCluster) (e : Error)
    (hread : kubeconfig.ReadKubeconfig (env.GetSecret w) = .ok r)
    (htargets : r.remoteTargetClusters = pre ++ t :: post)
    (hpre : (main.initCreateLoop env r.remoteAPIServers pre (main.initialState w)).2 = none)
    (hfail :
      main.upsertFails env t
        (main.initCreateLoop env r.remoteAPIServers pre (main.initialState w)).1 e ∨
      main.statusUpdateFails env r.remoteAPIServers t
        (main.initCreateLoop env r.remoteAPIServers pre (main.initialState w)).1 e) :
    main.initCreate env w = .ok (main.loopBody env r.remoteAPIServers t
      (main.initCreateLoop env r.remoteAPIServers pre (main.initialState w)).1) ∧
    (main.loopBody env r.remoteAPIServers t
      (main.initCreateLoop env r.remoteAPIServers pre (main.initialState w)).1).2 = some e ∧
    main.initCreateLoop env r.remoteAPIServers (pre ++ t :: post) (main.initialState w) =
      main.initCreateLoop env r.remoteAPIServers (pre ++ [t]) (main.initialState w) ∧
    (main.upsertFails env t
        (main.initCreateLoop env r.remoteAPIServers pre (main.initialState w)).1 e →
      (main.loopBody env r.remoteAPIServers t
        (main.initCreateLoop env r.remoteAPIServers pre (main.initialState w)).1).1.trace =
        (main.initCreateLoop env r.remoteAPIServers pre (main.initialState w)).1.trace ++
          [main.Event.createOrUpdate t]) ∧
    ∃ evs, (main.loopBody env r.remoteAPIServers t
        (main.initCreateLoop env r.remoteAPIServers pre (main.initialState w)).1).1.trace =
        (main.initCreateLoop env r.remoteAPIServers pre (main.initialState w)).1.trace ++ evs ∧
      ∀ ev ∈ evs, ev.concerns t := by
  obtain ⟨herr, hstop⟩ := main.initCreateLoop_abort env r.remoteAPIServers pre t
    (main.initialState w) e hpre hfail
  refine ⟨?_, herr, by rw [hstop post, hstop []], ?_, ?_⟩
  · simp only [main.initCreate, hread, htargets, hstop post]
  · intro h
    rw [main.loopBody_abort env r.remoteAPIServers t _ e h]
    rfl
  · obtain ⟨evs, h1, h2⟩ := main.loopBody_trace env r.remoteAPIServers t
      (main.initCreateLoop env r.remoteAPIServers pre (main.initialState w)).1
    refine ⟨evs, h1, ?_⟩
    intro ev hev
    rcases h2 ev hev with h | h | ⟨a, h, _⟩
    · exact Or.inl h
    · exact Or.inr (Or.inr h)
    · exact Or.inr (Or.inl ⟨a, h⟩)

/-- Witness of `write_failure_aborts_pass`: the API server refuses writes to `ctx-b`; the pass
over `ctx-a`, `ctx-b`, `ctx-c` returns the error of the upsert of `ctx-b` and makes no call for
`ctx-c`. -/
theorem write_failure_aborts_pass_witness :
    (main.initCreate fake.env
      { secret := some ⟨[("config",
          "clusters:\n    server: https://10.0.0.1:6443\n  name: cluster-a\ncontexts:\n    cluster: cluster-a\n    user: user-a\n  name: ctx-a\n    user: user-b\n  name: ctx-b\n    user: user-c\n  name: ctx-c\ncurrent-context: ctx-a\n")]⟩,
        reachable := ["https://10.0.0.1:6443/livez"],
        refused := ["ctx-b"] }).map (fun x => (x.1.trace, x.2)) =
      .ok ([main.Event.createOrUpdate ⟨"ctx-a", "cluster-a", "user-a"⟩,
          main.Event.healthChecks ⟨"ctx-a", "cluster-a", "user-a"⟩
            ⟨"cluster-a", "https://10.0.0.1:6443"⟩,
          main.Event.statusUpdate ⟨"ctx-a", "cluster-a", "user-a"⟩
            { ObjectMeta := { Name := "ctx-a", Namespace := "resource-replicator-system" },
              Spec := { Context := "ctx-a", Cluster := "cluster-a", User := "user-a" },
              Status := { ClusterStatus := "Running" } },
          main.Event.createOrUpdate ⟨"ctx-b", "cluster-a", "user-b"⟩],
        some (.other "forbidden")) :=
  congrArg (Except.map (fun x => (x.1.trace, x.2)))
    (write_failure_aborts_pass fake.env
      { secret := some ⟨[("config",
          "clusters:\n    server: https://10.0.0.1:6443\n  name: cluster-a\ncontexts:\n    cluster: cluster-a\n    user: user-a\n  name: ctx-a\n    user: user-b\n  name: ctx-b\n    user: user-c\n  name: ctx-c\ncurrent-context: ctx-a\n")]⟩,
        reachable := ["https://10.0.0.1:6443/livez"],
        refused := ["ctx-b"] }
      { kubeconfig := "clusters:\n    server: https://10.0.0.1:6443\n  name: cluster-a\ncontexts:\n    cluster: cluster-a\n    user: user-a\n  name: ctx-a\n    user: user-b\n  name: ctx-b\n    user: user-c\n  name: ctx-c\ncurrent-context: ctx-a\n",
        remoteAPIServers := [⟨"cluster-a", "https://10.0.0.1:6443"⟩],
        remoteTargetClusters := [⟨"ctx-a", "cluster-a", "user-a"⟩,
          ⟨"ctx-b", "cluster-a", "user-b"⟩, ⟨"ctx-c", "cluster-a", "user-c"⟩],
        err := none }
      [⟨"ctx-a", "cluster-a", "user-a"⟩] ⟨"ctx-b", "cluster-a", "user-b"⟩
      [⟨"ctx-c", "cluster-a", "user-c"⟩] (.other "forbidden") rfl rfl rfl (Or.inl rfl)).1
